import Mathlib

/-!
Verification of the PyVISA instrument-console repository
(`src/instrument_tool.py`) against its natural-language specification.

The console is shallowly embedded: the VISA transport is an oracle (a list
of outcomes, one per transport call), console commands are state
transformers that record their prints, transport calls and file writes,
and Python exceptions become an `Except` layer that each command catches at
its boundary, exactly as the `try/except` blocks in the source do.
Numbers are modelled as exact rationals.
-/

namespace InstrumentTool

/-- Outcome of one transport-level call, supplied by the oracle:
a successful response string, a `pyvisa.errors.VisaIOError`, or any other
exception (each carrying its message). -/
inductive TransportOutcome where
  | ok (response : String)
  | visaErr (msg : String)
  | otherErr (msg : String)
deriving DecidableEq

/-- A transport-level call made by the console: `instrument.write`,
`instrument.query`, `instrument.query_binary_values`, `instrument.close`,
`rm.open_resource`, or `rm.list_resources`. -/
inductive TransportCall where
  | write (handle cmd : String)
  | query (handle cmd : String)
  | queryBinary (handle cmd : String)
  | closeRes (handle : String)
  | openRes (addr : String)
  | listRes
deriving DecidableEq

/-- A Python exception escaping some statement: either a
`pyvisa.errors.VisaIOError` or any other `Exception` (message attached). -/
inductive Exc where
  | visa (msg : String)
  | other (msg : String)
deriving DecidableEq

/-- Contents of a file written by a command.  Image captures write raw
bytes (`binary`); the TXT waveform export writes fully formatted text;
the CSV waveform export goes through `csv.writer`, modelled at the level
of the rows handed to the writer (file serialization of rows is the csv
module, outside this repository). -/
inductive FileContent where
  | binary (data : String)
  | text (data : String)
  | csvFile (header : List String) (rows : List (ℚ × ℚ))
deriving DecidableEq

/-- The class-level connection state of `Console`: whether the
`ResourceManager` was created, the open instrument handle (modelled by the
resource address it was opened on) and `selected_device_id`
(`instrument_tool.py` lines 34-42). -/
structure ConsoleState where
  rmOk : Bool
  instrument : Option String
  selected_device_id : Option String
deriving DecidableEq

/-- Full interpreter state: console fields, the not-yet-consumed transport
oracle, and the observable effects (calls, prints, file writes), each in
chronological order. -/
structure St where
  console : ConsoleState
  oracle : List TransportOutcome
  calls : List TransportCall
  prints : List String
  files : List (String × FileContent)
deriving DecidableEq

/-- The command monad: state plus Python exceptions.  Effects performed
before a raise persist, as in Python. -/
def M (α : Type) : Type := St → Except Exc α × St

def M.pure (a : α) : M α := fun s => (Except.ok a, s)

def M.bind (m : M α) (f : α → M β) : M β := fun s =>
  match m s with
  | (Except.ok a, s2) => f a s2
  | (Except.error e, s2) => (Except.error e, s2)

instance instMonadM : Monad M where
  pure := M.pure
  bind := M.bind

theorem M.bind_def (m : M α) (f : α → M β) : m >>= f = M.bind m f := rfl

theorem M.pure_def (a : α) : (pure a : M α) = M.pure a := rfl

theorem M.run_pure (a : α) (s : St) : (pure a : M α) s = (Except.ok a, s) := rfl

/-- Raise a Python exception. -/
def throwE (e : Exc) : M α := fun s => (Except.error e, s)

/-- `try: body except: handler` — the handler receives the exception;
state mutated by `body` before the raise is kept. -/
def tryCatchM (m : M α) (h : Exc → M α) : M α := fun s =>
  match m s with
  | (Except.error e, s2) => h e s2
  | r => r

def getSt : M St := fun s => (Except.ok s, s)

def modifySt (f : St → St) : M Unit := fun s => (Except.ok (), f s)

/-- `print(msg)` — recorded in order. -/
def pr (msg : String) : M Unit :=
  modifySt fun s => { s with prints := s.prints ++ [msg] }

def getConsole : M ConsoleState := fun s => (Except.ok s.console, s)

def setConsole (c : ConsoleState) : M Unit :=
  modifySt fun s => { s with console := c }

def recordCall (c : TransportCall) : M Unit :=
  modifySt fun s => { s with calls := s.calls ++ [c] }

/-- Consume the next oracle outcome (defaulting to an empty successful
response if the oracle is exhausted). -/
def takeOutcome : M TransportOutcome := fun s =>
  match s.oracle with
  | [] => (Except.ok (TransportOutcome.ok ""), s)
  | o :: rest => (Except.ok o, { s with oracle := rest })

/-- Turn an oracle outcome into a returned response or a raised exception. -/
def unwrap (o : TransportOutcome) : M String :=
  match o with
  | TransportOutcome.ok r => pure r
  | TransportOutcome.visaErr m => throwE (Exc.visa m)
  | TransportOutcome.otherErr m => throwE (Exc.other m)

/-- `self.instrument.write(cmd)` -/
def instrWrite (h cmd : String) : M Unit := do
  recordCall (TransportCall.write h cmd)
  let o ← takeOutcome
  let _ ← unwrap o
  pure ()

/-- `self.instrument.query(cmd)` -/
def instrQuery (h cmd : String) : M String := do
  recordCall (TransportCall.query h cmd)
  let o ← takeOutcome
  unwrap o

/-- `self.instrument.query_binary_values(cmd, datatype='s', container=bytes, ...)` -/
def instrQueryBinary (h cmd : String) : M String := do
  recordCall (TransportCall.queryBinary h cmd)
  let o ← takeOutcome
  unwrap o

/-- `self.instrument.close()` -/
def instrClose (h : String) : M Unit := do
  recordCall (TransportCall.closeRes h)
  let o ← takeOutcome
  let _ ← unwrap o
  pure ()

/-- `self.rm.open_resource(addr)` — succeeds or raises. -/
def rmOpen (addr : String) : M Unit := do
  recordCall (TransportCall.openRes addr)
  let o ← takeOutcome
  let _ ← unwrap o
  pure ()

/-- `self.rm.list_resources()` — the oracle encodes the discovered
resource tuple as one comma-separated string. -/
def rmList : M String := do
  recordCall TransportCall.listRes
  let o ← takeOutcome
  unwrap o

/-- `with open(filename, ...) as f: f.write(...)` (and the csv.writer
equivalent): record the file written. -/
def writeFileEff (name : String) (content : FileContent) : M Unit :=
  modifySt fun s => { s with files := s.files ++ [(name, content)] }

/-- `try: body except Exception: pass` -/
def trySwallow (m : M Unit) : M Unit := tryCatchM m fun _ => pure ()

/-- The standard two-handler command boundary:
`except VisaIOError as e: print(v e)` then `except Exception as e: print(g e)`. -/
def tryVisaOther (m : M Unit) (v g : String → String) : M Unit :=
  tryCatchM m fun e =>
    match e with
    | Exc.visa msg => pr (v msg)
    | Exc.other msg => pr (g msg)

/-- A single `except Exception as e: print(g e)` boundary (catches
`VisaIOError` as well, since it is an `Exception`). -/
def tryAnyPrint (m : M Unit) (g : String → String) : M Unit :=
  tryCatchM m fun e =>
    match e with
    | Exc.visa msg => pr (g msg)
    | Exc.other msg => pr (g msg)

/-- `if not self.instrument: print(msg); return`, else run the body with
the open handle. -/
def withInstr (msg : String) (k : String → M Unit) : M Unit := do
  let c ← getConsole
  match c.instrument with
  | none => pr msg
  | some h => k h

/-- `if not arg: print(usage); return`. -/
def requireArg (arg usage : String) (m : M Unit) : M Unit :=
  if arg = "" then pr usage else m

/-- Python `s.strip('"')` after `s.strip()`: drop all leading and trailing
double-quote characters. -/
def stripQuotes (s : String) : String :=
  String.mk ((((s.toList.dropWhile (fun c => c = '"')).reverse.dropWhile
    (fun c => c = '"')).reverse))

/-- Python `s.strip()` on a character list: drop leading and trailing
whitespace. -/
def pyTrimList (l : List Char) : List Char :=
  ((l.dropWhile Char.isWhitespace).reverse.dropWhile Char.isWhitespace).reverse

/-- Python `s.strip()`. -/
def pyTrim (s : String) : String := String.mk (pyTrimList s.toList)

/-- Python `s.split(sep)` for a one-character separator, on character
lists: splitting the empty string yields one empty part, exactly as in
Python. -/
def pySplitChar (sep : Char) (l : List Char) : List (List Char) :=
  l.foldr
    (fun c acc =>
      match acc with
      | [] => [[c]]
      | a :: rest => if c = sep then [] :: a :: rest else (c :: a) :: rest)
    [[]]

/-- Python `s.split(sep)` for a one-character separator. -/
def pySplitStr (s : String) (sep : Char) : List String :=
  (pySplitChar sep s.toList).map String.mk

/-- Python `s.upper()` (ASCII). -/
def pyUpper (s : String) : String := String.mk (s.toList.map Char.toUpper)

/-- Python `s.lower()` (ASCII). -/
def pyLower (s : String) : String := String.mk (s.toList.map Char.toLower)

/-- Python `s[:n]`. -/
def pyTake (s : String) (n : Nat) : String := String.mk (s.toList.take n)

/-- Python `sep in s` for a one-character needle. -/
def pyContains (s : String) (c : Char) : Bool := s.toList.contains c

/-- Run a command from a console state and an oracle, returning the final
interpreter state. -/
def initSt (c : ConsoleState) (oracle : List TransportOutcome) : St :=
  { console := c, oracle := oracle, calls := [], prints := [], files := [] }

def runCmd (m : M Unit) (c : ConsoleState) (oracle : List TransportOutcome) : St :=
  (m (initSt c oracle)).2

/-- The `Except` result of a command run (`Except.ok ()` means no exception
escaped the command boundary). -/
def runRes (m : M Unit) (c : ConsoleState) (oracle : List TransportOutcome) :
    Except Exc Unit :=
  (m (initSt c oracle)).1

/-! ### Python `float()` on decimal literals, and `%.6e` formatting -/

/-- Value of a decimal digit string. -/
def digitsVal (l : List Char) : Nat :=
  l.foldl (fun a c => a * 10 + (c.toNat - 48)) 0

/-- Strip one optional leading sign; `true` means negative. -/
def splitSign : List Char → Bool × List Char
  | '-' :: r => (true, r)
  | '+' :: r => (false, r)
  | l => (false, l)

/-- Parse the unsigned part of a Python float literal
(`digits [. digits] [exp]`, `.digits [exp]`), exactly the decimal forms
accepted by `float()` (the `inf`/`nan`/underscore forms never occur in
SCPI responses and are not modelled). -/
def pyFloatCore (l : List Char) : Option ℚ :=
  let mant := l.takeWhile (fun c => c ≠ 'e' ∧ c ≠ 'E')
  let expPart := l.drop mant.length
  let expVal :=
    match expPart with
    | [] => some (0 : ℤ)
    | _ :: rest =>
        let sr := splitSign rest
        if sr.2 ≠ [] ∧ sr.2.all Char.isDigit then
          some (if sr.1 then -(digitsVal sr.2 : ℤ) else (digitsVal sr.2 : ℤ))
        else none
  match expVal with
  | none => none
  | some e =>
      let ip := mant.takeWhile Char.isDigit
      let rest2 := mant.drop ip.length
      match rest2 with
      | [] => if ip = [] then none else some ((digitsVal ip : ℚ) * (10 : ℚ) ^ e)
      | '.' :: fp =>
          if fp.all Char.isDigit ∧ (ip ≠ [] ∨ fp ≠ []) then
            some (((digitsVal ip : ℚ) + (digitsVal fp : ℚ) / (10 : ℚ) ^ fp.length)
              * (10 : ℚ) ^ e)
          else none
      | _ => none

/-- Python `float(s)` on a decimal literal: `some` value or `none` when a
`ValueError` would be raised.  Surrounding whitespace is tolerated, as by
`float()`. -/
def pyFloat (s : String) : Option ℚ :=
  let t := pyTrimList s.toList
  let sb := splitSign t
  match pyFloatCore sb.2 with
  | none => none
  | some q => some (if sb.1 then -q else q)

/-- `list(map(float, tokens))`: the value list, or the `ValueError`
message raised at the first non-numeric token. -/
def parseFloats : List String → Except String (List ℚ)
  | [] => Except.ok []
  | x :: xs =>
      match pyFloat x with
      | none => Except.error ("could not convert string to float: " ++ x)
      | some q =>
          match parseFloats xs with
          | Except.ok l => Except.ok (q :: l)
          | Except.error m => Except.error m

/-- Monadic version used inside commands: raises the `ValueError` as a
generic exception. -/
def pyFloatListM (xs : List String) : M (List ℚ) :=
  match parseFloats xs with
  | Except.ok l => pure l
  | Except.error m => throwE (Exc.other m)

/-- `s.strip().split(',')`. -/
def pyTokens (s : String) : List String := pySplitStr (pyTrim s) ','

/-- Python `l[i]` on a list: the element, or an `IndexError`. -/
def pyIndex (l : List ℚ) (i : Nat) : M ℚ :=
  match l.get? i with
  | some q => pure q
  | none => throwE (Exc.other "list index out of range")

/-- The waveform decoding loop of `do_oscope_capture_data`
(lines 970-976): `voltage = Y_INCrement * (raw_value - Y_Reference)`,
`time_sec = i * X_INCrement`, pairs appended in order. -/
def decodeWaveform (xInc yInc yRef : ℚ) (raw : List ℚ) : List (ℚ × ℚ) :=
  raw.enum.map fun p => ((p.1 : ℚ) * xInc, yInc * (p.2 - yRef))

/-- Round to the nearest integer, ties to even (the rounding used by
Python float formatting). -/
def roundHalfEven (q : ℚ) : ℤ :=
  let f : ℤ := ⌊q⌋
  let r : ℚ := q - (f : ℚ)
  if r < 1 / 2 then f
  else if 1 / 2 < r then f + 1
  else if f % 2 = 0 then f else f + 1

/-- Decimal exponent of `q` in scientific notation (`⌊log10 |q|⌋`; `0` for
`q = 0`). -/
def sciExponent (q : ℚ) : ℤ := Int.log 10 |q|

/-- Mantissa of `q` scaled to 7 digits and rounded:
`round(|q| * 10 ^ (6 - exponent))`. -/
def sciScaled (q : ℚ) : ℤ :=
  roundHalfEven (|q| * (10 : ℚ) ^ ((6 : ℤ) - sciExponent q))

/-- Normalized (mantissa, exponent): rounding up to `10^7` carries into
the exponent. -/
def sciMantExp (q : ℚ) : ℤ × ℤ :=
  if sciScaled q = 10 ^ 7 then (10 ^ 6, sciExponent q + 1)
  else (sciScaled q, sciExponent q)

/-- The 6 fractional mantissa digits. -/
def fracChars (m : Nat) : List Char :=
  [100000, 10000, 1000, 100, 10, 1].map fun p => Nat.digitChar (m / p % 10)

/-- Exponent suffix of `%.6e`: sign then at least two digits. -/
def expChars (e : ℤ) : List Char :=
  (if e < 0 then '-' else '+') ::
    (if e.natAbs < 10 then '0' :: (Nat.repr e.natAbs).toList
     else (Nat.repr e.natAbs).toList)

/-- Character sequence of Python `f"{q:.6e}"` on the exact value `q`:
optional sign, leading mantissa digit, point, 6 fractional digits, `e`,
signed two-or-more digit exponent. -/
def sciChars (q : ℚ) : List Char :=
  (if q < 0 then ['-'] else []) ++
    Nat.digitChar ((sciMantExp q).1.toNat / 1000000 % 10) ::
      '.' :: fracChars (sciMantExp q).1.toNat ++ 'e' :: expChars (sciMantExp q).2

/-- Python `f"{q:.6e}"`. -/
def fmtSci6 (q : ℚ) : String := String.mk (sciChars q)

/-- Number of digit characters in the printed mantissa (before the `e`),
i.e. the number of significant digits shown. -/
def digitsBeforeE (l : List Char) : Nat :=
  ((l.takeWhile fun c => c ≠ 'e').filter fun c => c.isDigit).length

/-- Number of digit characters between the decimal point and the `e`. -/
def digitsAfterDot (l : List Char) : Nat :=
  digitsBeforeE (((l.dropWhile fun c => c ≠ '.').drop 1))

/-- Body lines of the TXT waveform export
(`f"{t:.6e}\t{v:.6e}\n"` per pair, lines 987-988). -/
def txtLines (pairs : List (ℚ × ℚ)) : String :=
  String.join (pairs.map fun p => fmtSci6 p.1 ++ "\t" ++ fmtSci6 p.2 ++ "\n")

/-- Full content of the TXT waveform export: fixed header then one line
per pair (lines 985-988). -/
def txtContent (pairs : List (ℚ × ℚ)) : String :=
  "Time (s)\tVoltage (V)\n" ++ txtLines pairs

/-! ### Command messages and shape helpers -/

/-- Guard message of the early commands (`do_id` .. `do_dmm_range_set`). -/
def noDeviceFullMsg : String := "No device selected. Use \x27deviceselect\x27 first."

/-- Guard message of all later instrument commands. -/
def noDeviceMsg : String := "No device selected."

def unexpectedMsg (e : String) : String := "An unexpected error occurred: " ++ e

/-- Shape of a no-argument single-`write` command with the two-handler
boundary. -/
def writeCmd0V (noDev scpi okMsg : String) (v g : String → String) : M Unit :=
  withInstr noDev fun h =>
    tryVisaOther (do instrWrite h scpi; pr okMsg) v g

/-- Shape of a no-argument single-`write` command with only
`except Exception`. -/
def writeCmd0A (noDev scpi okMsg : String) (g : String → String) : M Unit :=
  withInstr noDev fun h =>
    tryAnyPrint (do instrWrite h scpi; pr okMsg) g

/-- Shape of an argument-taking single-`write` command with the
two-handler boundary (`scpi`/`okMsg` already formatted from the
argument). -/
def writeCmd1V (noDev usage arg scpi okMsg : String) (v g : String → String) :
    M Unit :=
  withInstr noDev fun h =>
    requireArg arg usage (tryVisaOther (do instrWrite h scpi; pr okMsg) v g)

/-- Shape of an argument-taking single-`write` command with only
`except Exception`. -/
def writeCmd1A (noDev usage arg scpi okMsg : String) (g : String → String) :
    M Unit :=
  withInstr noDev fun h =>
    requireArg arg usage (tryAnyPrint (do instrWrite h scpi; pr okMsg) g)

/-- Shape of a no-argument single-`query` command: the continuation
receives the raw response. -/
def queryCmd0V (noDev scpi : String) (k : String → M Unit)
    (v g : String → String) : M Unit :=
  withInstr noDev fun h =>
    tryVisaOther (do let r ← instrQuery h scpi; k r) v g

/-- Print every string in a list, in order (a Python `for` over
`print`). -/
def prList : List String → M Unit
  | [] => pure ()
  | x :: xs => do
      pr x
      prList xs

/-! ### Device management commands (lines 55-148) -/

/-- `do_id` (lines 150-167); defined first because `do_deviceselect`
invokes it after a successful connection. -/
def do_id (_arg : String) : M Unit :=
  queryCmd0V noDeviceFullMsg "*IDN?"
    (fun r => pr ("Instrument IDN: " ++ pyTrim r))
    (fun e => "Error querying *IDN?: " ++ e) unexpectedMsg

/-- `do_devicelist` (lines 55-76). -/
def do_devicelist (_arg : String) : M Unit := do
  let c ← getConsole
  if c.rmOk = false then
    pr "ResourceManager not available."
  else
    tryAnyPrint (do
        let r ← rmList
        let devices := if r = "" then [] else pySplitStr r ','
        if devices ≠ [] then do
          pr "Available VISA Resources:"
          prList (devices.map fun d => "  " ++ d)
        else
          pr "No VISA resources detected.")
      (fun e => "Error listing devices: " ++ e)

/-- `do_deviceselect` (lines 78-132). -/
def do_deviceselect (device_id : String) : M Unit := do
  let c ← getConsole
  if device_id = "" then
    pr "Please provide a device ID. Use \x27devicelist\x27 to see options."
  else if c.rmOk = false then
    pr "ResourceManager not available."
  else do
    let clean := stripQuotes (pyTrim device_id)
    tryCatchM (do
        match c.instrument with
        | some h => do
            trySwallow (instrClose h)
            setConsole { c with instrument := none, selected_device_id := none }
        | none => pure ()
        rmOpen clean
        let c2 ← getConsole
        setConsole { c2 with instrument := some clean,
                             selected_device_id := some clean }
        pr ("Successfully selected and connected to: " ++ clean)
        trySwallow (do_id ""))
      (fun e =>
        match e with
        | Exc.visa msg => do
            pr ("Error connecting to device \x27" ++ clean ++ "\x27: " ++ msg)
            let c3 ← getConsole
            setConsole { c3 with instrument := none, selected_device_id := none }
        | Exc.other msg => pr (unexpectedMsg msg))

/-- `do_deviceinfo` (lines 134-148). -/
def do_deviceinfo (device_id : String) : M Unit := do
  if device_id = "" then
    pr "Usage: deviceinfo \"device_id\""
  else do
    pr ("Device ID: " ++ stripQuotes (pyTrim device_id))
    pr "To get manufacturer/model, use \x27deviceselect\x27 then \x27id\x27 (which queries *IDN?)."

/-! ### Generic SCPI commands (lines 172-290) -/

/-- `do_write` (lines 172-197). -/
def do_write (command : String) : M Unit :=
  withInstr noDeviceFullMsg fun h =>
    requireArg command "Usage: write \"SCPI_CMD\""
      (tryVisaOther (do
          let c := stripQuotes (pyTrim command)
          instrWrite h c
          pr ("Sent: " ++ c))
        (fun e => "Error writing command: " ++ e) unexpectedMsg)

/-- `do_query` (lines 199-224). -/
def do_query (command : String) : M Unit :=
  withInstr noDeviceFullMsg fun h =>
    requireArg command "Usage: query \"SCPI_QUERY\""
      (tryVisaOther (do
          let c := stripQuotes (pyTrim command)
          let r ← instrQuery h c
          pr ("Response: " ++ pyTrim r))
        (fun e => "Error querying command: " ++ e) unexpectedMsg)

/-- `do_reset` (lines 226-245). -/
def do_reset (_arg : String) : M Unit :=
  writeCmd0V noDeviceFullMsg "*RST" "Instrument reset command (*RST) sent."
    (fun e => "Error resetting instrument: " ++ e) unexpectedMsg

/-- `do_wait_opc` (lines 247-269). -/
def do_wait_opc (_arg : String) : M Unit :=
  queryCmd0V noDeviceFullMsg "*OPC?"
    (fun _ => pr "Operation Complete (*OPC?) verified.")
    (fun e => "Error waiting for OPC: " ++ e) unexpectedMsg

/-- `do_get_error` (lines 271-290). -/
def do_get_error (_arg : String) : M Unit :=
  queryCmd0V noDeviceFullMsg ":SYSTem:ERRor?"
    (fun r => pr ("Instrument Error: " ++ pyTrim r))
    (fun e => "Error querying system error: " ++ e) unexpectedMsg

/-! ### DMM commands (lines 295-621) -/

/-- `do_dmm_func_set` (lines 295-323). -/
def do_dmm_func_set (func : String) : M Unit :=
  writeCmd1V noDeviceFullMsg "Usage: dmm_func_set \"FUNCTION\"" func
    (":SENSe:FUNCtion \"" ++ pyUpper (stripQuotes (pyTrim func)) ++ "\"")
    ("DMM function set to: " ++ pyUpper (stripQuotes (pyTrim func)))
    (fun e => "Error setting DMM function: " ++ e) unexpectedMsg

/-- `do_dmm_range_set` (lines 325-352). -/
def do_dmm_range_set (range_val : String) : M Unit :=
  writeCmd1V noDeviceFullMsg "Usage: dmm_range_set <range_value|AUTO>" range_val
    (":SENSe:RANGe " ++ pyTrim range_val)
    ("DMM range set to: " ++ pyTrim range_val)
    (fun e => "Error setting DMM range: " ++ e) unexpectedMsg

/-- `do_dmm_autoranging` (lines 354-385). -/
def do_dmm_autoranging (state : String) : M Unit :=
  withInstr noDeviceMsg fun h =>
    requireArg state "Usage: dmm_autoranging <ON|OFF>"
      (tryVisaOther (do
          let scpi_state := pyUpper state
          if scpi_state ≠ "ON" ∧ scpi_state ≠ "OFF" ∧ scpi_state ≠ "1" ∧
              scpi_state ≠ "0" then
            pr "Invalid state. Use ON or OFF."
          else do
            instrWrite h (":SENSe:RANGe:AUTO " ++ scpi_state)
            pr ("DMM auto-ranging set to: " ++ scpi_state))
        (fun e => "Error setting DMM auto-ranging: " ++ e) unexpectedMsg)

/-- `do_dmm_delay_set` (lines 387-413). -/
def do_dmm_delay_set (delay : String) : M Unit :=
  writeCmd1V noDeviceMsg "Usage: dmm_delay_set <seconds>" delay
    (":SENSe:DELay " ++ pyTrim delay)
    ("DMM measurement delay set to: " ++ pyTrim delay ++ " s")
    (fun e => "Error setting DMM delay: " ++ e) unexpectedMsg

/-- `do_dmm_resolution_set` (lines 415-441). -/
def do_dmm_resolution_set (resolution : String) : M Unit :=
  writeCmd1V noDeviceMsg "Usage: dmm_resolution_set <resolution>" resolution
    (":SENSe:RESolution " ++ pyTrim resolution)
    ("DMM resolution set to: " ++ pyTrim resolution)
    (fun e => "Error setting DMM resolution: " ++ e) unexpectedMsg

/-- `do_dmm_measure_dc_v` (lines 444-463). -/
def do_dmm_measure_dc_v (_arg : String) : M Unit :=
  queryCmd0V noDeviceMsg ":MEASure:VOLTage:DC?"
    (fun r => pr ("DC Voltage: " ++ pyTrim r ++ " V"))
    (fun e => "Error measuring DC Voltage. Check instrument capability: " ++ e)
    unexpectedMsg

/-- `do_dmm_measure_ac_v` (lines 465-484). -/
def do_dmm_measure_ac_v (_arg : String) : M Unit :=
  queryCmd0V noDeviceMsg ":MEASure:VOLTage:AC?"
    (fun r => pr ("AC Voltage (RMS): " ++ pyTrim r ++ " V"))
    (fun e => "Error measuring AC Voltage. Check instrument capability: " ++ e)
    unexpectedMsg

/-- `do_dmm_measure_dc_i` (lines 486-505). -/
def do_dmm_measure_dc_i (_arg : String) : M Unit :=
  queryCmd0V noDeviceMsg ":MEASure:CURRent:DC?"
    (fun r => pr ("DC Current: " ++ pyTrim r ++ " A"))
    (fun e => "Error measuring DC Current. Check instrument capability: " ++ e)
    unexpectedMsg

/-- `do_dmm_measure_ac_i` (lines 507-526). -/
def do_dmm_measure_ac_i (_arg : String) : M Unit :=
  queryCmd0V noDeviceMsg ":MEASure:CURRent:AC?"
    (fun r => pr ("AC Current (RMS): " ++ pyTrim r ++ " A"))
    (fun e => "Error measuring AC Current. Check instrument capability: " ++ e)
    unexpectedMsg

/-- `do_dmm_measure_continuity` (lines 528-553). -/
def do_dmm_measure_continuity (_arg : String) : M Unit :=
  queryCmd0V noDeviceMsg ":MEASure:CONTinuity?"
    (fun r => pr ("Continuity Resistance: " ++ pyTrim r ++ " Ohm"))
    (fun e => "Error measuring continuity. Check instrument capability: " ++ e)
    unexpectedMsg

/-- `do_dmm_measure_diode` (lines 555-578). -/
def do_dmm_measure_diode (_arg : String) : M Unit :=
  queryCmd0V noDeviceMsg ":MEASure:DIODe?"
    (fun r => pr ("Diode Forward Voltage: " ++ pyTrim r ++ " V"))
    (fun e =>
      "Error measuring diode forward voltage. Check instrument capability: " ++ e)
    unexpectedMsg

/-- `do_dmm_measure2_resistance` (lines 580-599). -/
def do_dmm_measure2_resistance (_arg : String) : M Unit :=
  queryCmd0V noDeviceMsg ":MEASure:RESistance?"
    (fun r => pr ("Resistance: " ++ pyTrim r ++ " Ohm"))
    (fun e =>
      "Error measuring 2-wire Resistance. Check instrument capability: " ++ e)
    unexpectedMsg

/-- `do_dmm_measure4_resistance` (lines 601-621). -/
def do_dmm_measure4_resistance (_arg : String) : M Unit :=
  queryCmd0V noDeviceMsg ":MEASure:FRESistance?"
    (fun r => pr ("4-Wire Resistance: " ++ pyTrim r ++ " Ohm"))
    (fun e =>
      "Error measuring 4-wire Resistance. Check instrument capability: " ++ e)
    unexpectedMsg

/-! ### Oscilloscope commands (lines 627-996) -/

/-- `map(str.strip, arg.split(','))`, the unpack target of every
composite-argument command. -/
def splitParts (arg : String) : List String :=
  (pySplitStr arg ',').map pyTrim

/-- `do_oscope_set_timebase` (lines 627-653). -/
def do_oscope_set_timebase (sec_per_div : String) : M Unit :=
  writeCmd1V noDeviceMsg "Usage: oscope_set_timebase <seconds_per_div>" sec_per_div
    (":HORizontal:SCAle " ++ sec_per_div)
    ("Oscilloscope timebase set to: " ++ sec_per_div ++ " s/div")
    (fun e => "Error setting timebase: " ++ e) unexpectedMsg

/-- `do_oscope_set_vertscale` (lines 655-685): the `channel, volts_per_div`
unpack raises `ValueError` (caught as the format error) unless the
argument splits into exactly two parts. -/
def do_oscope_set_vertscale (channel_volt_per_div : String) : M Unit :=
  withInstr noDeviceMsg fun h =>
    requireArg channel_volt_per_div "Usage: oscope_set_vertscale <channel>,<volts_per_div>"
      (tryVisaOther
        (match splitParts channel_volt_per_div with
         | [channel, volts_per_div] => do
             instrWrite h (":CHANnel" ++ channel ++ ":SCAle " ++ volts_per_div)
             pr ("Oscilloscope Channel " ++ channel ++ " scale set to: " ++
               volts_per_div ++ " V/div")
         | _ => pr "Invalid format. Use: <channel>,<volts_per_div> (e.g., 1,0.5)")
        (fun e => "Error setting vertical scale: " ++ e) unexpectedMsg)

/-- `do_oscope_measure_param` (lines 687-719). -/
def do_oscope_measure_param (channel_parameter : String) : M Unit :=
  withInstr noDeviceMsg fun h =>
    requireArg channel_parameter "Usage: oscope_measure_param <channel>,<parameter>"
      (tryVisaOther
        (match splitParts channel_parameter with
         | [channel, parameter] => do
             let parameter_scpi := pyUpper parameter
             let m ← instrQuery h
               (":MEASure:" ++ parameter_scpi ++ "? CHANnel" ++ channel)
             pr ("Channel " ++ channel ++ " " ++ parameter_scpi ++ ": " ++ pyTrim m)
         | _ => pr "Invalid format. Use: <channel>,<parameter> (e.g., 1,FREQ)")
        (fun e =>
          "Error reading measurement: " ++ e ++
            ". Check if this measurement is supported.")
        unexpectedMsg)

/-- `do_oscope_set_trigger_source` (lines 721-747). -/
def do_oscope_set_trigger_source (source : String) : M Unit :=
  writeCmd1V noDeviceMsg "Usage: oscope_set_trigger_source <source>" source
    (":TRIGger:SOURce " ++ pyUpper source)
    ("Oscilloscope trigger source set to: " ++ pyUpper source)
    (fun e => "Error setting trigger source: " ++ e) unexpectedMsg

/-- `do_oscope_set_trigger_level` (lines 749-783). -/
def do_oscope_set_trigger_level (channel_level : String) : M Unit :=
  withInstr noDeviceMsg fun h =>
    requireArg channel_level "Usage: oscope_set_trigger_level <channel>,<voltage>"
      (tryVisaOther
        (match splitParts channel_level with
         | [channel, level] => do
             instrWrite h (":TRIGger:LEVel " ++ level)
             pr ("Oscilloscope trigger level set to: " ++ level ++
               " V (Assumed for Channel " ++ channel ++ " source)")
         | _ => pr "Invalid format. Use: <channel>,<voltage> (e.g., 1,0.5)")
        (fun e => "Error setting trigger level: " ++ e) unexpectedMsg)

/-- `do_oscope_set_trigger_slope` (lines 785-821). -/
def do_oscope_set_trigger_slope (channel_slope : String) : M Unit :=
  withInstr noDeviceMsg fun h =>
    requireArg channel_slope "Usage: oscope_set_trigger_slope <channel>,<POS|NEG|EITH>"
      (tryVisaOther
        (match splitParts channel_slope with
         | [channel, slope] => do
             let scpi_slope := pyUpper slope
             if scpi_slope ≠ "POS" ∧ scpi_slope ≠ "NEG" ∧ scpi_slope ≠ "EITH" then
               pr "Invalid slope. Use POS, NEG, or EITH."
             else do
               instrWrite h (":TRIGger:EDGE:SLOpe " ++ scpi_slope)
               pr ("Oscilloscope trigger slope set to: " ++ scpi_slope ++
                 " (Assumed for Channel " ++ channel ++ " source)")
         | _ => pr "Invalid format. Use: <channel>,<POS|NEG|EITH> (e.g., 1,POS)")
        (fun e => "Error setting trigger slope: " ++ e) unexpectedMsg)

/-- `do_oscope_get_setup` (lines 823-842). -/
def do_oscope_get_setup (_arg : String) : M Unit :=
  queryCmd0V noDeviceMsg ":SETup?"
    (fun r =>
      pr ("Oscilloscope Setup String (truncated to 200 chars): " ++
        (pyTake (pyTrim r) 200) ++ "..."))
    (fun e => "Error getting setup. Check instrument capability: " ++ e)
    unexpectedMsg

/-- `do_oscope_run` (lines 844-863). -/
def do_oscope_run (_arg : String) : M Unit :=
  writeCmd0V noDeviceMsg ":RUN" "Oscilloscope set to RUN mode."
    (fun e => "Error setting RUN mode: " ++ e) unexpectedMsg

/-- `filename.split('.')[-1].upper()`, the extension computation of the
capture commands. -/
def fileExtension (filename : String) : String :=
  pyUpper ((pySplitStr filename '.').getLastD "")

/-- `do_oscope_screen_capture` (lines 865-919). -/
def do_oscope_screen_capture (filename_format : String) : M Unit :=
  withInstr noDeviceMsg fun h =>
    requireArg filename_format "Usage: oscope_screen_capture <filename.png|filename.jpeg>"
      (tryCatchM (do
          let filename := pyTrim filename_format
          let extension := fileExtension filename
          if extension = "PNG" ∨ extension = "JPEG" ∨ extension = "JPG" then do
            pr ("Requesting scope screen data (" ++ extension ++ ")...")
            let image_data ← instrQueryBinary h (":DISPlay:DATA? " ++ extension)
            if image_data = "" then
              pr "Error: Received no image data from the instrument."
            else do
              writeFileEff filename (FileContent.binary image_data)
              pr ("Scope screen capture successfully saved to: " ++ filename)
          else
            pr "Unsupported format for screen capture. Use PNG or JPEG/JPG.")
        (fun e =>
          match e with
          | Exc.visa msg => do
              pr ("Error communicating with instrument: " ++ msg)
              pr "HINT: Ensure the waveform source is set via \x27oscope_set_wfm_source\x27."
          | Exc.other msg => pr (unexpectedMsg msg)))

/-- `do_oscope_capture_data` (lines 921-996): query the preamble, parse
it, query the ASCII waveform data, parse it, decode to (time, voltage)
pairs, and export as CSV rows or formatted TXT. -/
def do_oscope_capture_data (filename_format : String) : M Unit :=
  withInstr noDeviceMsg fun h =>
    requireArg filename_format "Usage: oscope_capture_data <filename.csv|filename.txt>"
      (tryCatchM (do
          let filename := pyTrim filename_format
          let extension := fileExtension filename
          if extension ≠ "CSV" ∧ extension ≠ "TXT" then
            pr "Unsupported format for data capture. Use CSV or TXT."
          else do
            let preamble_str ← instrQuery h ":WAVeform:PREamble?"
            let preamble ← pyFloatListM (pyTokens preamble_str)
            let xInc ← pyIndex preamble 5
            let yInc ← pyIndex preamble 7
            let yRef ← pyIndex preamble 8
            instrWrite h ":WAVeform:FORMat ASCii"
            let raw_data_str ← instrQuery h ":WAVeform:DATA?"
            let raw_data ← pyFloatListM (pyTokens raw_data_str)
            let processed_data := decodeWaveform xInc yInc yRef raw_data
            if extension = "CSV" then
              writeFileEff filename
                (FileContent.csvFile ["Time (s)", "Voltage (V)"] processed_data)
            else
              writeFileEff filename (FileContent.text (txtContent processed_data))
            pr ("Waveform data successfully processed and saved to: " ++ filename ++
              " (" ++ Nat.repr raw_data.length ++ " points)."))
        (fun e =>
          match e with
          | Exc.visa msg => do
              pr ("Error communicating with instrument: " ++ msg)
              pr "HINT: Ensure the instrument is ready and the waveform source is set."
          | Exc.other msg =>
              pr ("An unexpected error occurred during data processing: " ++ msg)))

/-! ### Function generator (AFG) commands (lines 1001-1109) -/

/-- `do_afg_set_wave` (lines 1001-1034). -/
def do_afg_set_wave (args : String) : M Unit :=
  withInstr noDeviceMsg fun h =>
    requireArg args "Usage: afg_set_wave \"WAVE, FREQ, AMPL\""
      (tryVisaOther
        (match splitParts args with
         | [waveform, freq, ampl] => do
             instrWrite h (":FUNCtion " ++ pyUpper waveform)
             instrWrite h (":FREQuency " ++ freq)
             instrWrite h (":VOLTage " ++ ampl)
             pr ("AFG set to " ++ pyUpper waveform ++ " wave, " ++ freq ++
               " Hz, " ++ ampl ++ " Vpp")
         | _ => pr "Invalid format. Use: afg_set_wave \"WAVE,FREQ,AMPL\" (e.g., SIN,1000,1.0)")
        (fun e => "Error setting waveform: " ++ e)
        (fun e => "Unexpected error: " ++ e))

/-- `do_afg_output_on` (lines 1036-1053). -/
def do_afg_output_on (_arg : String) : M Unit :=
  writeCmd0A noDeviceMsg ":OUTPut ON" "AFG output turned ON."
    (fun e => "Error enabling output: " ++ e)

/-- `do_afg_output_off` (lines 1055-1072). -/
def do_afg_output_off (_arg : String) : M Unit :=
  writeCmd0A noDeviceMsg ":OUTPut OFF" "AFG output turned OFF."
    (fun e => "Error disabling output: " ++ e)

/-- `do_afg_psu_slew_set` (lines 1074-1109): with a comma the argument is
unpacked as `channel, rate` (three or more parts raise the unpack
`ValueError`, caught by the single generic handler); without a comma the
whole string is the rate. -/
def do_afg_psu_slew_set (channel_rate : String) : M Unit :=
  withInstr noDeviceMsg fun h =>
    requireArg channel_rate "Usage: afg_psu_slew_set <rate_V_per_s>"
      (tryAnyPrint
        (if pyContains channel_rate ',' then
           match splitParts channel_rate with
           | [channel, rate] => do
               instrWrite h (":VOLTage:SLEW:RATE " ++ rate)
               pr ("Slew rate set to " ++ rate ++ " V/s (Assuming Channel " ++
                 channel ++ " or single output).")
           | _ => throwE (Exc.other "too many values to unpack (expected 2)")
         else do
           let rate := pyTrim channel_rate
           instrWrite h (":VOLTage:SLEW:RATE " ++ rate)
           pr ("Slew rate set to " ++ rate ++ " V/s."))
        (fun e =>
          "Error setting slew rate. Command likely unsupported by instrument: " ++ e))

/-! ### Power supply (PSU) commands (lines 1114-1344) -/

/-- `do_psu_set_voltage` (lines 1114-1138). -/
def do_psu_set_voltage (voltage : String) : M Unit :=
  writeCmd1A noDeviceMsg "Usage: psu_set_voltage <voltage>" voltage
    (":VOLTage " ++ voltage) ("Voltage set to " ++ voltage ++ " V")
    (fun e => "Error setting voltage: " ++ e)

/-- `do_psu_set_current` (lines 1140-1164). -/
def do_psu_set_current (current : String) : M Unit :=
  writeCmd1A noDeviceMsg "Usage: psu_set_current <current>" current
    (":CURRent " ++ current) ("Current limit set to " ++ current ++ " A")
    (fun e => "Error setting current: " ++ e)

/-- `do_psu_output_on` (lines 1166-1183). -/
def do_psu_output_on (_arg : String) : M Unit :=
  writeCmd0A noDeviceMsg ":OUTPut ON" "Power supply output ON."
    (fun e => "Error enabling PSU output: " ++ e)

/-- `do_psu_output_off` (lines 1185-1202). -/
def do_psu_output_off (_arg : String) : M Unit :=
  writeCmd0A noDeviceMsg ":OUTPut OFF" "Power supply output OFF."
    (fun e => "Error disabling PSU output: " ++ e)

/-- `do_psu_set_ovp` (lines 1204-1230). -/
def do_psu_set_ovp (voltage : String) : M Unit :=
  writeCmd1A noDeviceMsg "Usage: psu_set_ovp <voltage>" voltage
    (":VOLTage:PROTection:LEVel " ++ voltage) ("OVP set to " ++ voltage ++ " V")
    (fun e => "Error setting OVP: " ++ e)

/-- `do_psu_set_ocp` (lines 1232-1260). -/
def do_psu_set_ocp (current : String) : M Unit :=
  writeCmd1A noDeviceMsg "Usage: psu_set_ocp <current>" current
    (":CURRent:PROTection:LEVel " ++ current) ("OCP set to " ++ current ++ " A")
    (fun e => "Error setting OCP: " ++ e)

/-- `do_psu_set_otp` (lines 1262-1289). -/
def do_psu_set_otp (temperature : String) : M Unit :=
  writeCmd1A noDeviceMsg "Usage: psu_set_otp <temperature>" temperature
    (":SENSe:TEMPerature:PROTection:LEVel " ++ temperature)
    ("OTP level set to " ++ temperature ++ " °C.")
    (fun e => "Error setting OTP. Command may be unsupported by instrument: " ++ e)

/-- `do_psu_measure_output` (lines 1291-1317): note that the argument is
normalized and validated before any usage check on emptiness (an empty
argument fails the membership test and prints the usage line). -/
def do_psu_measure_output (measure_type : String) : M Unit :=
  withInstr noDeviceMsg fun h => do
    let mt := pyUpper (pyTrim measure_type)
    if mt ≠ "VOLT" ∧ mt ≠ "CURR" then
      pr "Usage: psu_measure_output <VOLT|CURR>"
    else
      tryAnyPrint (do
          let m ← instrQuery h (":MEASure:" ++ mt ++ "?")
          let unit := if mt = "VOLT" then "V" else "A"
          pr ("Output " ++ mt ++ ": " ++ pyTrim m ++ " " ++ unit))
        (fun e => "Error measuring output " ++ mt ++ ": " ++ e)

/-- `do_psu_protection_clear` (lines 1319-1344). -/
def do_psu_protection_clear (_arg : String) : M Unit :=
  writeCmd0A noDeviceMsg "*CLS" "PSU protection trip state cleared (*CLS sent)."
    (fun e => "Error clearing protection state: " ++ e)

/-! ### Spectrum analyzer / VNA commands (lines 1349-1702) -/

/-- `do_rf_set_center_freq` (lines 1349-1375). -/
def do_rf_set_center_freq (frequency : String) : M Unit :=
  writeCmd1V noDeviceMsg "Usage: rf_set_center_freq <frequency>" frequency
    (":SENSe:FREQuency:CENTer " ++ frequency)
    ("Center frequency set to: " ++ frequency)
    (fun e => "Error setting center frequency: " ++ e) unexpectedMsg

/-- `do_rf_set_span` (lines 1377-1403). -/
def do_rf_set_span (span : String) : M Unit :=
  writeCmd1V noDeviceMsg "Usage: rf_set_span <span_frequency>" span
    (":SENSe:FREQuency:SPAN " ++ span) ("Span set to: " ++ span)
    (fun e => "Error setting span: " ++ e) unexpectedMsg

/-- `do_rf_set_power` (lines 1405-1435). -/
def do_rf_set_power (power_level : String) : M Unit :=
  writeCmd1V noDeviceMsg "Usage: rf_set_power <power_level>" power_level
    (":SOURce:POWer:LEVel " ++ power_level)
    ("RF Power/Ref Level set to: " ++ power_level)
    (fun e => "Error setting RF power level: " ++ e) unexpectedMsg

/-- `do_sa_set_rbw_vbw` (lines 1437-1470). -/
def do_sa_set_rbw_vbw (bandwidths : String) : M Unit :=
  withInstr noDeviceMsg fun h =>
    requireArg bandwidths "Usage: sa_set_rbw_vbw <rbw>,<vbw>"
      (tryVisaOther
        (match splitParts bandwidths with
         | [rbw, vbw] => do
             instrWrite h (":SENSe:BANDwidth:RESolution " ++ rbw)
             instrWrite h (":SENSe:BANDwidth:VIDeo " ++ vbw)
             pr ("RBW set to " ++ rbw ++ ", VBW set to " ++ vbw)
         | _ => pr "Invalid format. Use: <rbw>,<vbw> (e.g., 10kHz,3kHz)")
        (fun e => "Error setting bandwidths: " ++ e)
        (fun e => "Unexpected error: " ++ e))

/-- `do_sa_read_marker` (lines 1472-1502). -/
def do_sa_read_marker (marker_number : String) : M Unit :=
  withInstr noDeviceMsg fun h =>
    requireArg marker_number "Usage: sa_read_marker <marker_number>"
      (tryVisaOther (do
          let mkr := pyTrim marker_number
          let freq ← instrQuery h (":CALCulate:MARKer" ++ mkr ++ ":X?")
          let amp ← instrQuery h (":CALCulate:MARKer" ++ mkr ++ ":Y?")
          pr ("Marker " ++ mkr ++ ": Frequency = " ++ pyTrim freq ++
            " Hz, Amplitude = " ++ pyTrim amp ++ " dBm"))
        (fun e => "Error reading marker: " ++ e) unexpectedMsg)

/-- `do_vna_set_sweep` (lines 1504-1536). -/
def do_vna_set_sweep (start_stop_points : String) : M Unit :=
  withInstr noDeviceMsg fun h =>
    requireArg start_stop_points "Usage: vna_set_sweep <start_freq>,<stop_freq>,<points>"
      (tryVisaOther
        (match splitParts start_stop_points with
         | [start, stop, points] => do
             instrWrite h (":SENSe:FREQuency:STARt " ++ start)
             instrWrite h (":SENSe:FREQuency:STOP " ++ stop)
             instrWrite h (":SENSe:SWEep:POINts " ++ points)
             pr ("VNA sweep set: " ++ start ++ " to " ++ stop ++ ", " ++
               points ++ " points.")
         | _ => pr "Invalid format. Use: <start_freq>,<stop_freq>,<points> (e.g., 1GHz,2GHz,201)")
        (fun e => "Error setting VNA sweep parameters: " ++ e)
        (fun e => "Unexpected error: " ++ e))

/-- `do_vna_measure_sparam` (lines 1538-1576). -/
def do_vna_measure_sparam (sparam_format : String) : M Unit :=
  withInstr noDeviceMsg fun h =>
    requireArg sparam_format "Usage: vna_measure_sparam <sparam>,<format>"
      (tryVisaOther
        (match splitParts sparam_format with
         | [sparam, dformat] => do
             let sparam_scpi := pyUpper sparam
             let dformat_scpi := pyUpper dformat
             instrWrite h (":CALCulate:PARameter:DEFine \"Trc1_" ++ sparam_scpi ++
               "\"," ++ sparam_scpi)
             instrWrite h (":CALCulate:SELected:FORMat " ++ dformat_scpi)
             pr ("VNA Measurement set to " ++ sparam_scpi ++ " with format " ++
               dformat_scpi ++ ".")
         | _ => pr "Invalid format. Use: <sparam>,<format> (e.g., S21,MLOG)")
        (fun e => "Error setting S-parameter measurement: " ++ e)
        (fun e => "Unexpected error: " ++ e))

/-- `do_vna_set_trace` (lines 1578-1616). -/
def do_vna_set_trace (trace_param_window : String) : M Unit :=
  withInstr noDeviceMsg fun h =>
    requireArg trace_param_window "Usage: vna_set_trace <trace_num>,<sparam>,<window_num>"
      (tryVisaOther
        (match splitParts trace_param_window with
         | [tnum, sparam, wnum] => do
             let sparam_scpi := pyUpper sparam
             instrWrite h (":CALCulate" ++ wnum ++ ":PARameter" ++ tnum ++
               ":DEFine \"" ++ sparam_scpi ++ "\"")
             instrWrite h (":DISPlay:WINDow" ++ wnum ++ ":TRACe" ++ tnum ++
               ":FEED \"" ++ sparam_scpi ++ "\"")
             pr ("Trace " ++ tnum ++ " in Window " ++ wnum ++ " now displays " ++
               sparam_scpi ++ ".")
         | _ => pr "Invalid format. Use: <trace_num>,<sparam>,<window_num> (e.g., 2,S21,1)")
        (fun e => "Error setting VNA trace: " ++ e)
        (fun e => "Unexpected error: " ++ e))

/-- Python `repr` of a short list of plain strings (used by
`do_vna_query_data`). -/
def pyListRepr (l : List String) : String :=
  "[" ++ String.intercalate ", " (l.map fun s => "\x27" ++ s ++ "\x27") ++ "]"

/-- `do_vna_query_data` (lines 1618-1643). -/
def do_vna_query_data (_arg : String) : M Unit :=
  queryCmd0V noDeviceMsg ":CALCulate:SELected:DATA:FDATa?"
    (fun data => do
      let data_points := pySplitStr (pyTrim data) ','
      pr ("VNA Trace Data Queried: " ++ Nat.repr data_points.length ++
        " values received.")
      pr ("First 10 values: " ++ pyListRepr (data_points.take 10) ++ "...")
      pr "\nNote: Use this with Python scripting for saving/plotting.")
    (fun e => "Error querying VNA data: " ++ e) unexpectedMsg

/-- `do_rf_screen_capture` (lines 1645-1702). -/
def do_rf_screen_capture (filename_format : String) : M Unit :=
  withInstr noDeviceMsg fun h =>
    requireArg filename_format "Usage: rf_screen_capture <filename.png|filename.jpeg>"
      (tryCatchM (do
          let filename := pyTrim filename_format
          let extension := fileExtension filename
          if extension = "PNG" ∨ extension = "JPEG" ∨ extension = "JPG" then do
            pr ("Requesting screen data (" ++ extension ++ ")...")
            let image_data ← instrQueryBinary h (":DISPlay:DATA? " ++ extension)
            if image_data = "" then
              pr "Error: Received no image data from the instrument."
            else do
              writeFileEff filename (FileContent.binary image_data)
              pr ("Screen capture successfully saved to: " ++ filename)
          else
            pr "Unsupported format for screen capture. Use PNG or JPEG/JPG.")
        (fun e =>
          match e with
          | Exc.visa msg => do
              pr ("Error communicating with instrument: " ++ msg)
              pr "HINT: Check instrument manual for the exact SCPI screen capture command."
          | Exc.other msg => pr (unexpectedMsg msg)))

/-! ### Electronic load commands (lines 1708-2044) -/

/-- `do_eload_set_mode` (lines 1708-1738). -/
def do_eload_set_mode (mode : String) : M Unit :=
  withInstr noDeviceMsg fun h =>
    requireArg mode "Usage: eload_set_mode <CURR|VOLT|RES|POW>"
      (tryVisaOther (do
          let scpi_mode := pyUpper (pyTrim mode)
          if scpi_mode ≠ "CURR" ∧ scpi_mode ≠ "VOLT" ∧ scpi_mode ≠ "RES" ∧
              scpi_mode ≠ "POW" then
            pr "Invalid mode. Use CURR, VOLT, RES, or POW."
          else do
            instrWrite h (":FUNCtion:MODE " ++ scpi_mode)
            pr ("Electronic Load mode set to: " ++ scpi_mode))
        (fun e => "Error setting load mode: " ++ e) unexpectedMsg)

/-- `do_eload_set_current` (lines 1740-1766). -/
def do_eload_set_current (current : String) : M Unit :=
  writeCmd1V noDeviceMsg "Usage: eload_set_current <amps>" current
    (":CURRent " ++ current) ("CC current set to " ++ current ++ " A.")
    (fun e => "Error setting current: " ++ e) unexpectedMsg

/-- `do_eload_set_voltage` (lines 1768-1794). -/
def do_eload_set_voltage (voltage : String) : M Unit :=
  writeCmd1V noDeviceMsg "Usage: eload_set_voltage <volts>" voltage
    (":VOLTage " ++ voltage) ("CV voltage set to " ++ voltage ++ " V.")
    (fun e => "Error setting voltage: " ++ e) unexpectedMsg

/-- `do_eload_set_resistance` (lines 1796-1822). -/
def do_eload_set_resistance (resistance : String) : M Unit :=
  writeCmd1V noDeviceMsg "Usage: eload_set_resistance <ohms>" resistance
    (":RESistance " ++ resistance)
    ("CR resistance set to " ++ resistance ++ " Ohm.")
    (fun e => "Error setting resistance: " ++ e) unexpectedMsg

/-- `do_eload_set_power` (lines 1824-1850). -/
def do_eload_set_power (power : String) : M Unit :=
  writeCmd1V noDeviceMsg "Usage: eload_set_power <watts>" power
    (":POWer " ++ power) ("CP power set to " ++ power ++ " W.")
    (fun e => "Error setting power: " ++ e) unexpectedMsg

/-- `do_eload_input_on` (lines 1852-1869). -/
def do_eload_input_on (_arg : String) : M Unit :=
  writeCmd0A noDeviceMsg ":INPut ON" "Electronic Load Input ON (Load active)."
    (fun e => "Error enabling load input: " ++ e)

/-- `do_eload_input_off` (lines 1871-1888). -/
def do_eload_input_off (_arg : String) : M Unit :=
  writeCmd0A noDeviceMsg ":INPut OFF" "Electronic Load Input OFF (Load inactive)."
    (fun e => "Error disabling load input: " ++ e)

/-- `do_eload_measure_input` (lines 1890-1916). -/
def do_eload_measure_input (measure_type : String) : M Unit :=
  withInstr noDeviceMsg fun h => do
    let mt := pyUpper (pyTrim measure_type)
    if mt ≠ "VOLT" ∧ mt ≠ "CURR" then
      pr "Usage: eload_measure_input <VOLT|CURR>"
    else
      tryAnyPrint (do
          let m ← instrQuery h (":MEASure:" ++ mt ++ "?")
          let unit := if mt = "VOLT" then "V" else "A"
          pr ("ELoad Input " ++ mt ++ ": " ++ pyTrim m ++ " " ++ unit))
        (fun e => "Error measuring ELoad input " ++ mt ++ ": " ++ e)

/-- `do_eload_set_slew` (lines 1918-1946). -/
def do_eload_set_slew (rate : String) : M Unit :=
  writeCmd1A noDeviceMsg "Usage: eload_set_slew <amps_per_second>" rate
    (":CURRent:SLEW:RATE " ++ rate) ("CC Slew Rate set to " ++ rate ++ " A/s.")
    (fun e => "Error setting current slew rate: " ++ e)

/-- `do_eload_set_transient` (lines 1948-1990). -/
def do_eload_set_transient (levels_timing : String) : M Unit :=
  withInstr noDeviceMsg fun h =>
    requireArg levels_timing "Usage: eload_set_transient <level_A>,<level_B>,<pulse_width>"
      (tryVisaOther
        (match splitParts levels_timing with
         | [level_a, level_b, pulse_width] => do
             instrWrite h (":CURRent:STATic " ++ level_a)
             instrWrite h (":CURRent:TRANsient:LEVel " ++ level_b)
             instrWrite h (":CURRent:TRANsient:PULSe:WIDTh " ++ pulse_width)
             instrWrite h ":FUNCtion:MODE TRANsient"
             pr ("ELoad set for transient test: A=" ++ level_a ++ ", B=" ++
               level_b ++ ", Width=" ++ pulse_width ++ ".")
         | _ => pr "Invalid format. Use: <level_A>,<level_B>,<pulse_width> (e.g., 0.5A,2.0A,10ms)")
        (fun e => "Error setting transient mode: " ++ e) unexpectedMsg)

/-- `do_eload_set_ovl` (lines 1992-2017). -/
def do_eload_set_ovl (voltage : String) : M Unit :=
  writeCmd1A noDeviceMsg "Usage: eload_set_ovl <voltage>" voltage
    (":VOLTage:PROTection:LEVel " ++ voltage) ("OVL set to " ++ voltage ++ " V")
    (fun e => "Error setting OVL: " ++ e)

/-- `do_eload_set_opl` (lines 2019-2044). -/
def do_eload_set_opl (power : String) : M Unit :=
  writeCmd1A noDeviceMsg "Usage: eload_set_opl <power_watts>" power
    (":POWer:PROTection:LEVel " ++ power) ("OPL set to " ++ power ++ " W")
    (fun e => "Error setting OPL: " ++ e)

/-! ### Diagnostics, exit, and the top level (lines 2049-2182) -/

/-- `do_ping_device` (lines 2049-2070). -/
def do_ping_device (_arg : String) : M Unit :=
  withInstr noDeviceMsg fun h =>
    tryCatchM (do
        let r ← instrQuery h "*OPC?"
        let resp := pyTrim r
        if resp = "1" ∨ pyLower resp = "true" then
          pr "Instrument communication OK."
        else
          pr ("Unexpected response: " ++ resp))
      (fun e =>
        match e with
        | Exc.visa msg => pr ("Device ping failed (VisaIOError): " ++ msg)
        | Exc.other msg => pr ("Device ping failed: " ++ msg))

/-- The SCPI probes of `do_check_capabilities` (lines 2101-2109). -/
def candidateCmds : List String :=
  [":MEASure:VOLTage:DC?", ":MEASure:VOLTage:AC?", ":MEASure:CURRent:DC?",
   ":MEASure:RESistance?", ":WAVeform:DATA?", ":TRIGger:SOURce?",
   ":OUTPut:STATe?"]

/-- The probe loop of `do_check_capabilities` (lines 2110-2118): query
each candidate, collecting those that answered without raising. -/
def probeCmds (h : String) : List String → M (List String)
  | [] => pure []
  | c :: cs => do
      let succeeded ← tryCatchM (do let _ ← instrQuery h c; pure true)
        (fun _ => pure false)
      let rest ← probeCmds h cs
      pure (if succeeded then c :: rest else rest)

/-- `do_check_capabilities` (lines 2072-2127). -/
def do_check_capabilities (_arg : String) : M Unit :=
  withInstr noDeviceMsg fun h =>
    tryAnyPrint (do
        pr "Checking instrument capabilities...\n"
        tryCatchM (do
            let idn ← instrQuery h "*IDN?"
            pr ("IDN: " ++ pyTrim idn))
          (fun _ => pr "IDN query not supported or failed.")
        tryCatchM (do
            let opts ← instrQuery h "*OPT?"
            pr ("Options: " ++ pyTrim opts))
          (fun _ => pr "Options query not supported.")
        let supported ← probeCmds h candidateCmds
        if supported ≠ [] then do
          pr "\nLikely supported SCPI commands (best-effort probe):"
          prList (supported.map fun c => "  " ++ c)
        else
          pr "\nCould not auto-detect SCPI feature set from probes.")
      (fun e => "Error checking capabilities: " ++ e)

/-- Python `str` of an optional string (`None` prints as `None`). -/
def pyOptStr : Option String → String
  | none => "None"
  | some s => s

/-- `do_exit` (lines 2132-2153): best-effort history save (external, not
modelled), best-effort close of an open connection, farewell print, then
`sys.exit(0)` — the returned value is the `SystemExit` code. -/
def do_exit (_arg : String) : M Nat := do
  let c ← getConsole
  match c.instrument with
  | some h =>
      trySwallow (do
        pr ("Closing connection to " ++ pyOptStr c.selected_device_id ++ "...")
        instrClose h)
  | none => pure ()
  pr "Exiting console. Goodbye!"
  pure 0

/-- `do_EOF` (lines 2156-2159): prints a blank line then exits. -/
def do_EOF (arg : String) : M Nat := do
  pr ""
  do_exit arg

/-- How the command loop of `__main__` ended. -/
inductive LoopOutcome where
  | sysExit (code : Nat)
  | keyboardInterrupt
  | otherExc (msg : String)
  | normal
deriving DecidableEq

/-- Process exit status as determined by the `__main__` block
(lines 2177-2182): `SystemExit` propagates with its code; a
`KeyboardInterrupt` or any other exception is caught and reported, and
the script then falls off the end with status 0. -/
def mainExitCode : LoopOutcome → Nat
  | LoopOutcome.sysExit code => code
  | LoopOutcome.keyboardInterrupt => 0
  | LoopOutcome.otherExc _ => 0
  | LoopOutcome.normal => 0

/-! ### The command table -/

/-- Every `do_*` command of the console except `do_exit`/`do_EOF` (which
terminate the process and are modelled separately). -/
inductive CommandName where
  | devicelist | deviceselect | deviceinfo | id | write | query | reset
  | wait_opc | get_error
  | dmm_func_set | dmm_range_set | dmm_autoranging | dmm_delay_set
  | dmm_resolution_set | dmm_measure_dc_v | dmm_measure_ac_v
  | dmm_measure_dc_i | dmm_measure_ac_i | dmm_measure_continuity
  | dmm_measure_diode | dmm_measure2_resistance | dmm_measure4_resistance
  | oscope_set_timebase | oscope_set_vertscale | oscope_measure_param
  | oscope_set_trigger_source | oscope_set_trigger_level
  | oscope_set_trigger_slope | oscope_get_setup | oscope_run
  | oscope_screen_capture | oscope_capture_data
  | afg_set_wave | afg_output_on | afg_output_off | afg_psu_slew_set
  | psu_set_voltage | psu_set_current | psu_output_on | psu_output_off
  | psu_set_ovp | psu_set_ocp | psu_set_otp | psu_measure_output
  | psu_protection_clear
  | rf_set_center_freq | rf_set_span | rf_set_power
  | sa_set_rbw_vbw | sa_read_marker
  | vna_set_sweep | vna_measure_sparam | vna_set_trace | vna_query_data
  | rf_screen_capture
  | eload_set_mode | eload_set_current | eload_set_voltage
  | eload_set_resistance | eload_set_power | eload_input_on
  | eload_input_off | eload_measure_input | eload_set_slew
  | eload_set_transient | eload_set_ovl | eload_set_opl
  | ping_device | check_capabilities
deriving DecidableEq

/-- Dispatch a named command on its argument string. -/
def dispatch : CommandName → String → M Unit
  | CommandName.devicelist, a => do_devicelist a
  | CommandName.deviceselect, a => do_deviceselect a
  | CommandName.deviceinfo, a => do_deviceinfo a
  | CommandName.id, a => do_id a
  | CommandName.write, a => do_write a
  | CommandName.query, a => do_query a
  | CommandName.reset, a => do_reset a
  | CommandName.wait_opc, a => do_wait_opc a
  | CommandName.get_error, a => do_get_error a
  | CommandName.dmm_func_set, a => do_dmm_func_set a
  | CommandName.dmm_range_set, a => do_dmm_range_set a
  | CommandName.dmm_autoranging, a => do_dmm_autoranging a
  | CommandName.dmm_delay_set, a => do_dmm_delay_set a
  | CommandName.dmm_resolution_set, a => do_dmm_resolution_set a
  | CommandName.dmm_measure_dc_v, a => do_dmm_measure_dc_v a
  | CommandName.dmm_measure_ac_v, a => do_dmm_measure_ac_v a
  | CommandName.dmm_measure_dc_i, a => do_dmm_measure_dc_i a
  | CommandName.dmm_measure_ac_i, a => do_dmm_measure_ac_i a
  | CommandName.dmm_measure_continuity, a => do_dmm_measure_continuity a
  | CommandName.dmm_measure_diode, a => do_dmm_measure_diode a
  | CommandName.dmm_measure2_resistance, a => do_dmm_measure2_resistance a
  | CommandName.dmm_measure4_resistance, a => do_dmm_measure4_resistance a
  | CommandName.oscope_set_timebase, a => do_oscope_set_timebase a
  | CommandName.oscope_set_vertscale, a => do_oscope_set_vertscale a
  | CommandName.oscope_measure_param, a => do_oscope_measure_param a
  | CommandName.oscope_set_trigger_source, a => do_oscope_set_trigger_source a
  | CommandName.oscope_set_trigger_level, a => do_oscope_set_trigger_level a
  | CommandName.oscope_set_trigger_slope, a => do_oscope_set_trigger_slope a
  | CommandName.oscope_get_setup, a => do_oscope_get_setup a
  | CommandName.oscope_run, a => do_oscope_run a
  | CommandName.oscope_screen_capture, a => do_oscope_screen_capture a
  | CommandName.oscope_capture_data, a => do_oscope_capture_data a
  | CommandName.afg_set_wave, a => do_afg_set_wave a
  | CommandName.afg_output_on, a => do_afg_output_on a
  | CommandName.afg_output_off, a => do_afg_output_off a
  | CommandName.afg_psu_slew_set, a => do_afg_psu_slew_set a
  | CommandName.psu_set_voltage, a => do_psu_set_voltage a
  | CommandName.psu_set_current, a => do_psu_set_current a
  | CommandName.psu_output_on, a => do_psu_output_on a
  | CommandName.psu_output_off, a => do_psu_output_off a
  | CommandName.psu_set_ovp, a => do_psu_set_ovp a
  | CommandName.psu_set_ocp, a => do_psu_set_ocp a
  | CommandName.psu_set_otp, a => do_psu_set_otp a
  | CommandName.psu_measure_output, a => do_psu_measure_output a
  | CommandName.psu_protection_clear, a => do_psu_protection_clear a
  | CommandName.rf_set_center_freq, a => do_rf_set_center_freq a
  | CommandName.rf_set_span, a => do_rf_set_span a
  | CommandName.rf_set_power, a => do_rf_set_power a
  | CommandName.sa_set_rbw_vbw, a => do_sa_set_rbw_vbw a
  | CommandName.sa_read_marker, a => do_sa_read_marker a
  | CommandName.vna_set_sweep, a => do_vna_set_sweep a
  | CommandName.vna_measure_sparam, a => do_vna_measure_sparam a
  | CommandName.vna_set_trace, a => do_vna_set_trace a
  | CommandName.vna_query_data, a => do_vna_query_data a
  | CommandName.rf_screen_capture, a => do_rf_screen_capture a
  | CommandName.eload_set_mode, a => do_eload_set_mode a
  | CommandName.eload_set_current, a => do_eload_set_current a
  | CommandName.eload_set_voltage, a => do_eload_set_voltage a
  | CommandName.eload_set_resistance, a => do_eload_set_resistance a
  | CommandName.eload_set_power, a => do_eload_set_power a
  | CommandName.eload_input_on, a => do_eload_input_on a
  | CommandName.eload_input_off, a => do_eload_input_off a
  | CommandName.eload_measure_input, a => do_eload_measure_input a
  | CommandName.eload_set_slew, a => do_eload_set_slew a
  | CommandName.eload_set_transient, a => do_eload_set_transient a
  | CommandName.eload_set_ovl, a => do_eload_set_ovl a
  | CommandName.eload_set_opl, a => do_eload_set_opl a
  | CommandName.ping_device, a => do_ping_device a
  | CommandName.check_capabilities, a => do_check_capabilities a

/-- The instrument-facing commands: everything except the three
connection-management commands (`devicelist`, `deviceselect`,
`deviceinfo`). -/
def instrumentFacing : CommandName → Bool
  | CommandName.devicelist => false
  | CommandName.deviceselect => false
  | CommandName.deviceinfo => false
  | _ => true

/-! ### Frame lemmas: which computations leave the connection state alone -/

/-- A computation keeps the console's connection state (it may print,
record calls, consume the oracle, write files, or raise). -/
def keeps {α : Type} (m : M α) : Prop :=
  ∀ s : St, (m s).2.console = s.console

theorem keeps_pure {α : Type} (a : α) : keeps (pure a : M α) := fun _ => rfl

theorem keeps_bind {α β : Type} {m : M α} {f : α → M β}
    (hm : keeps m) (hf : ∀ a, keeps (f a)) : keeps (m >>= f) := by
  intro s
  show (M.bind m f s).2.console = s.console
  unfold M.bind
  rcases hr : m s with ⟨r, s2⟩
  have h2 : s2.console = s.console := by
    have := hm s
    rw [hr] at this
    exact this
  cases r with
  | ok a => exact (hf a s2).trans h2
  | error e => exact h2

theorem keeps_throwE {α : Type} (e : Exc) : keeps (throwE e : M α) := fun _ => rfl

theorem keeps_tryCatchM {α : Type} {m : M α} {h : Exc → M α}
    (hm : keeps m) (hh : ∀ e, keeps (h e)) : keeps (tryCatchM m h) := by
  intro s
  unfold tryCatchM
  rcases hr : m s with ⟨r, s2⟩
  have h2 : s2.console = s.console := by
    have := hm s
    rw [hr] at this
    exact this
  cases r with
  | ok a => exact h2
  | error e => exact (hh e s2).trans h2

theorem keeps_ite {α : Type} (c : Prop) [Decidable c] {t e : M α}
    (ht : keeps t) (he : keeps e) : keeps (if c then t else e) := by
  by_cases h : c
  · rw [if_pos h]; exact ht
  · rw [if_neg h]; exact he

theorem keeps_pr (msg : String) : keeps (pr msg) := fun _ => rfl

theorem keeps_recordCall (c : TransportCall) : keeps (recordCall c) := fun _ => rfl

theorem keeps_writeFileEff (n : String) (c : FileContent) :
    keeps (writeFileEff n c) := fun _ => rfl

theorem keeps_takeOutcome : keeps takeOutcome := by
  intro s
  unfold takeOutcome
  cases s.oracle <;> rfl

theorem keeps_unwrap (o : TransportOutcome) : keeps (unwrap o) := by
  cases o <;> exact fun _ => rfl

theorem keeps_instrWrite (h c : String) : keeps (instrWrite h c) := by
  unfold instrWrite
  exact keeps_bind (keeps_recordCall _) fun _ =>
    keeps_bind keeps_takeOutcome fun o =>
      keeps_bind (keeps_unwrap o) fun _ => keeps_pure ()

theorem keeps_instrQuery (h c : String) : keeps (instrQuery h c) := by
  unfold instrQuery
  exact keeps_bind (keeps_recordCall _) fun _ =>
    keeps_bind keeps_takeOutcome fun o => keeps_unwrap o

theorem keeps_instrQueryBinary (h c : String) : keeps (instrQueryBinary h c) := by
  unfold instrQueryBinary
  exact keeps_bind (keeps_recordCall _) fun _ =>
    keeps_bind keeps_takeOutcome fun o => keeps_unwrap o

theorem keeps_instrClose (h : String) : keeps (instrClose h) := by
  unfold instrClose
  exact keeps_bind (keeps_recordCall _) fun _ =>
    keeps_bind keeps_takeOutcome fun o =>
      keeps_bind (keeps_unwrap o) fun _ => keeps_pure ()

theorem keeps_rmList : keeps rmList := by
  unfold rmList
  exact keeps_bind (keeps_recordCall _) fun _ =>
    keeps_bind keeps_takeOutcome fun o => keeps_unwrap o

theorem keeps_trySwallow {m : M Unit} (hm : keeps m) : keeps (trySwallow m) :=
  keeps_tryCatchM hm fun _ => keeps_pure ()

theorem keeps_tryVisaOther {m : M Unit} (v g : String → String) (hm : keeps m) :
    keeps (tryVisaOther m v g) :=
  keeps_tryCatchM hm fun e => by cases e <;> exact keeps_pr _

theorem keeps_tryAnyPrint {m : M Unit} (g : String → String) (hm : keeps m) :
    keeps (tryAnyPrint m g) :=
  keeps_tryCatchM hm fun e => by cases e <;> exact keeps_pr _

theorem keeps_withInstr {msg : String} {k : String → M Unit}
    (hk : ∀ h, keeps (k h)) : keeps (withInstr msg k) := by
  intro s
  obtain ⟨c, orc, cal, prs, fls⟩ := s
  obtain ⟨rm, instr, sel⟩ := c
  cases instr with
  | none => rfl
  | some h => exact hk h _

theorem keeps_requireArg {arg usage : String} {m : M Unit} (hm : keeps m) :
    keeps (requireArg arg usage m) := by
  unfold requireArg
  exact keeps_ite _ (keeps_pr _) hm

theorem keeps_prList (l : List String) : keeps (prList l) := by
  induction l with
  | nil => exact keeps_pure ()
  | cons x xs ih =>
      show keeps (pr x >>= fun _ => prList xs)
      exact keeps_bind (keeps_pr x) fun _ => ih

theorem keeps_pyFloatListM (xs : List String) : keeps (pyFloatListM xs) := by
  unfold pyFloatListM
  cases parseFloats xs with
  | ok l => exact keeps_pure l
  | error m => exact keeps_throwE _

theorem keeps_pyIndex (l : List ℚ) (i : Nat) : keeps (pyIndex l i) := by
  unfold pyIndex
  cases l.get? i with
  | none => exact keeps_throwE _
  | some q => exact keeps_pure q

theorem keeps_probeCmds (h : String) (l : List String) :
    keeps (probeCmds h l) := by
  induction l with
  | nil => exact keeps_pure []
  | cons c cs ih =>
      show keeps (tryCatchM _ _ >>= _)
      refine keeps_bind (keeps_tryCatchM ?_ fun _ => keeps_pure false) fun b => ?_
      · exact keeps_bind (keeps_instrQuery h c) fun _ => keeps_pure true
      · exact keeps_bind ih fun rest => keeps_pure _

theorem keeps_writeCmd0V (noDev scpi okMsg : String) (v g : String → String) :
    keeps (writeCmd0V noDev scpi okMsg v g) := by
  unfold writeCmd0V
  exact keeps_withInstr fun h =>
    keeps_tryVisaOther v g
      (keeps_bind (keeps_instrWrite h scpi) fun _ => keeps_pr okMsg)

theorem keeps_writeCmd0A (noDev scpi okMsg : String) (g : String → String) :
    keeps (writeCmd0A noDev scpi okMsg g) := by
  unfold writeCmd0A
  exact keeps_withInstr fun h =>
    keeps_tryAnyPrint g
      (keeps_bind (keeps_instrWrite h scpi) fun _ => keeps_pr okMsg)

theorem keeps_writeCmd1V (noDev usage arg scpi okMsg : String)
    (v g : String → String) : keeps (writeCmd1V noDev usage arg scpi okMsg v g) := by
  unfold writeCmd1V
  exact keeps_withInstr fun h =>
    keeps_requireArg (keeps_tryVisaOther v g
      (keeps_bind (keeps_instrWrite h scpi) fun _ => keeps_pr okMsg))

theorem keeps_writeCmd1A (noDev usage arg scpi okMsg : String)
    (g : String → String) : keeps (writeCmd1A noDev usage arg scpi okMsg g) := by
  unfold writeCmd1A
  exact keeps_withInstr fun h =>
    keeps_requireArg (keeps_tryAnyPrint g
      (keeps_bind (keeps_instrWrite h scpi) fun _ => keeps_pr okMsg))

theorem keeps_queryCmd0V (noDev scpi : String) {k : String → M Unit}
    (hk : ∀ r, keeps (k r)) (v g : String → String) :
    keeps (queryCmd0V noDev scpi k v g) := by
  unfold queryCmd0V
  exact keeps_withInstr fun h =>
    keeps_tryVisaOther v g (keeps_bind (keeps_instrQuery h scpi) hk)

theorem keeps_getConsole : keeps getConsole := fun _ => rfl

theorem keepsDo_devicelist (a : String) : keeps (do_devicelist a) := by
  unfold do_devicelist
  refine keeps_bind keeps_getConsole fun c => keeps_ite _ (keeps_pr _) ?_
  refine keeps_tryAnyPrint _ (keeps_bind keeps_rmList fun r => ?_)
  exact keeps_ite _ (keeps_bind (keeps_pr _) fun _ => keeps_prList _) (keeps_pr _)

theorem keepsDo_deviceinfo (a : String) : keeps (do_deviceinfo a) := by
  unfold do_deviceinfo
  refine keeps_ite _ (keeps_pr _) ?_
  exact keeps_bind (keeps_pr _) fun _ => keeps_pr _

theorem keepsDo_id (a : String) : keeps (do_id a) :=
  keeps_queryCmd0V _ _ (fun _ => keeps_pr _) _ _

theorem keepsDo_write (a : String) : keeps (do_write a) := by
  unfold do_write
  refine keeps_withInstr fun h => keeps_requireArg (keeps_tryVisaOther _ _ ?_)
  exact keeps_bind (keeps_instrWrite _ _) fun _ => keeps_pr _

theorem keepsDo_query (a : String) : keeps (do_query a) := by
  unfold do_query
  refine keeps_withInstr fun h => keeps_requireArg (keeps_tryVisaOther _ _ ?_)
  exact keeps_bind (keeps_instrQuery _ _) fun r => keeps_pr _

theorem keepsDo_reset (a : String) : keeps (do_reset a) := keeps_writeCmd0V _ _ _ _ _

theorem keepsDo_wait_opc (a : String) : keeps (do_wait_opc a) :=
  keeps_queryCmd0V _ _ (fun _ => keeps_pr _) _ _

theorem keepsDo_get_error (a : String) : keeps (do_get_error a) :=
  keeps_queryCmd0V _ _ (fun _ => keeps_pr _) _ _

theorem keepsDo_dmm_func_set (a : String) : keeps (do_dmm_func_set a) :=
  keeps_writeCmd1V _ _ _ _ _ _ _

theorem keepsDo_dmm_range_set (a : String) : keeps (do_dmm_range_set a) :=
  keeps_writeCmd1V _ _ _ _ _ _ _

theorem keepsDo_dmm_autoranging (a : String) : keeps (do_dmm_autoranging a) := by
  unfold do_dmm_autoranging
  refine keeps_withInstr fun h => keeps_requireArg (keeps_tryVisaOther _ _ ?_)
  exact keeps_ite _ (keeps_pr _)
    (keeps_bind (keeps_instrWrite _ _) fun _ => keeps_pr _)

theorem keepsDo_dmm_delay_set (a : String) : keeps (do_dmm_delay_set a) :=
  keeps_writeCmd1V _ _ _ _ _ _ _

theorem keepsDo_dmm_resolution_set (a : String) :
    keeps (do_dmm_resolution_set a) := keeps_writeCmd1V _ _ _ _ _ _ _

theorem keepsDo_dmm_measure_dc_v (a : String) : keeps (do_dmm_measure_dc_v a) :=
  keeps_queryCmd0V _ _ (fun _ => keeps_pr _) _ _

theorem keepsDo_dmm_measure_ac_v (a : String) : keeps (do_dmm_measure_ac_v a) :=
  keeps_queryCmd0V _ _ (fun _ => keeps_pr _) _ _

theorem keepsDo_dmm_measure_dc_i (a : String) : keeps (do_dmm_measure_dc_i a) :=
  keeps_queryCmd0V _ _ (fun _ => keeps_pr _) _ _

theorem keepsDo_dmm_measure_ac_i (a : String) : keeps (do_dmm_measure_ac_i a) :=
  keeps_queryCmd0V _ _ (fun _ => keeps_pr _) _ _

theorem keepsDo_dmm_measure_continuity (a : String) :
    keeps (do_dmm_measure_continuity a) :=
  keeps_queryCmd0V _ _ (fun _ => keeps_pr _) _ _

theorem keepsDo_dmm_measure_diode (a : String) :
    keeps (do_dmm_measure_diode a) :=
  keeps_queryCmd0V _ _ (fun _ => keeps_pr _) _ _

theorem keepsDo_dmm_measure2_resistance (a : String) :
    keeps (do_dmm_measure2_resistance a) :=
  keeps_queryCmd0V _ _ (fun _ => keeps_pr _) _ _

theorem keepsDo_dmm_measure4_resistance (a : String) :
    keeps (do_dmm_measure4_resistance a) :=
  keeps_queryCmd0V _ _ (fun _ => keeps_pr _) _ _

theorem keepsDo_oscope_set_timebase (a : String) :
    keeps (do_oscope_set_timebase a) := keeps_writeCmd1V _ _ _ _ _ _ _

theorem keepsDo_oscope_set_vertscale (a : String) :
    keeps (do_oscope_set_vertscale a) := by
  unfold do_oscope_set_vertscale
  refine keeps_withInstr fun h => keeps_requireArg (keeps_tryVisaOther _ _ ?_)
  rcases splitParts a with _ | ⟨x, _ | ⟨y, _ | ⟨z, r⟩⟩⟩
  · exact keeps_pr _
  · exact keeps_pr _
  · exact keeps_bind (keeps_instrWrite _ _) fun _ => keeps_pr _
  · exact keeps_pr _

theorem keepsDo_oscope_measure_param (a : String) :
    keeps (do_oscope_measure_param a) := by
  unfold do_oscope_measure_param
  refine keeps_withInstr fun h => keeps_requireArg (keeps_tryVisaOther _ _ ?_)
  rcases splitParts a with _ | ⟨x, _ | ⟨y, _ | ⟨z, r⟩⟩⟩
  · exact keeps_pr _
  · exact keeps_pr _
  · exact keeps_bind (keeps_instrQuery _ _) fun _ => keeps_pr _
  · exact keeps_pr _

theorem keepsDo_oscope_set_trigger_source (a : String) :
    keeps (do_oscope_set_trigger_source a) := keeps_writeCmd1V _ _ _ _ _ _ _

theorem keepsDo_oscope_set_trigger_level (a : String) :
    keeps (do_oscope_set_trigger_level a) := by
  unfold do_oscope_set_trigger_level
  refine keeps_withInstr fun h => keeps_requireArg (keeps_tryVisaOther _ _ ?_)
  rcases splitParts a with _ | ⟨x, _ | ⟨y, _ | ⟨z, r⟩⟩⟩
  · exact keeps_pr _
  · exact keeps_pr _
  · exact keeps_bind (keeps_instrWrite _ _) fun _ => keeps_pr _
  · exact keeps_pr _

theorem keepsDo_oscope_set_trigger_slope (a : String) :
    keeps (do_oscope_set_trigger_slope a) := by
  unfold do_oscope_set_trigger_slope
  refine keeps_withInstr fun h => keeps_requireArg (keeps_tryVisaOther _ _ ?_)
  rcases splitParts a with _ | ⟨x, _ | ⟨y, _ | ⟨z, r⟩⟩⟩
  · exact keeps_pr _
  · exact keeps_pr _
  · exact keeps_ite _ (keeps_pr _)
      (keeps_bind (keeps_instrWrite _ _) fun _ => keeps_pr _)
  · exact keeps_pr _

theorem keepsDo_oscope_get_setup (a : String) : keeps (do_oscope_get_setup a) :=
  keeps_queryCmd0V _ _ (fun _ => keeps_pr _) _ _

theorem keepsDo_oscope_run (a : String) : keeps (do_oscope_run a) :=
  keeps_writeCmd0V _ _ _ _ _

theorem keepsDo_oscope_screen_capture (a : String) :
    keeps (do_oscope_screen_capture a) := by
  unfold do_oscope_screen_capture
  refine keeps_withInstr fun h => keeps_requireArg (keeps_tryCatchM ?_ ?_)
  · refine keeps_ite _ ?_ (keeps_pr _)
    refine keeps_bind (keeps_pr _) fun _ =>
      keeps_bind (keeps_instrQueryBinary _ _) fun d => ?_
    exact keeps_ite _ (keeps_pr _)
      (keeps_bind (keeps_writeFileEff _ _) fun _ => keeps_pr _)
  · intro e
    cases e with
    | visa m => exact keeps_bind (keeps_pr _) fun _ => keeps_pr _
    | other m => exact keeps_pr _

theorem keepsDo_oscope_capture_data (a : String) :
    keeps (do_oscope_capture_data a) := by
  unfold do_oscope_capture_data
  refine keeps_withInstr fun h => keeps_requireArg (keeps_tryCatchM ?_ ?_)
  · refine keeps_ite _ (keeps_pr _) ?_
    refine keeps_bind (keeps_instrQuery _ _) fun ps => ?_
    refine keeps_bind (keeps_pyFloatListM _) fun pre => ?_
    refine keeps_bind (keeps_pyIndex _ _) fun x5 => ?_
    refine keeps_bind (keeps_pyIndex _ _) fun x7 => ?_
    refine keeps_bind (keeps_pyIndex _ _) fun x8 => ?_
    refine keeps_bind (keeps_instrWrite _ _) fun _ => ?_
    refine keeps_bind (keeps_instrQuery _ _) fun ds => ?_
    refine keeps_bind (keeps_pyFloatListM _) fun raw => ?_
    refine keeps_ite _ ?_ ?_ <;>
      exact keeps_bind (keeps_writeFileEff _ _) fun _ => keeps_pr _
  · intro e
    cases e with
    | visa m => exact keeps_bind (keeps_pr _) fun _ => keeps_pr _
    | other m => exact keeps_pr _

theorem keepsDo_afg_set_wave (a : String) : keeps (do_afg_set_wave a) := by
  unfold do_afg_set_wave
  refine keeps_withInstr fun h => keeps_requireArg (keeps_tryVisaOther _ _ ?_)
  rcases splitParts a with _ | ⟨x, _ | ⟨y, _ | ⟨z, _ | ⟨w, r⟩⟩⟩⟩
  · exact keeps_pr _
  · exact keeps_pr _
  · exact keeps_pr _
  · exact keeps_bind (keeps_instrWrite _ _) fun _ =>
      keeps_bind (keeps_instrWrite _ _) fun _ =>
        keeps_bind (keeps_instrWrite _ _) fun _ => keeps_pr _
  · exact keeps_pr _

theorem keepsDo_afg_output_on (a : String) : keeps (do_afg_output_on a) :=
  keeps_writeCmd0A _ _ _ _

theorem keepsDo_afg_output_off (a : String) : keeps (do_afg_output_off a) :=
  keeps_writeCmd0A _ _ _ _

theorem keepsDo_afg_psu_slew_set (a : String) : keeps (do_afg_psu_slew_set a) := by
  unfold do_afg_psu_slew_set
  refine keeps_withInstr fun h => keeps_requireArg (keeps_tryAnyPrint _ ?_)
  refine keeps_ite _ ?_ ?_
  · rcases splitParts a with _ | ⟨x, _ | ⟨y, _ | ⟨z, r⟩⟩⟩
    · exact keeps_throwE _
    · exact keeps_throwE _
    · exact keeps_bind (keeps_instrWrite _ _) fun _ => keeps_pr _
    · exact keeps_throwE _
  · exact keeps_bind (keeps_instrWrite _ _) fun _ => keeps_pr _

theorem keepsDo_psu_set_voltage (a : String) : keeps (do_psu_set_voltage a) :=
  keeps_writeCmd1A _ _ _ _ _ _

theorem keepsDo_psu_set_current (a : String) : keeps (do_psu_set_current a) :=
  keeps_writeCmd1A _ _ _ _ _ _

theorem keepsDo_psu_output_on (a : String) : keeps (do_psu_output_on a) :=
  keeps_writeCmd0A _ _ _ _

theorem keepsDo_psu_output_off (a : String) : keeps (do_psu_output_off a) :=
  keeps_writeCmd0A _ _ _ _

theorem keepsDo_psu_set_ovp (a : String) : keeps (do_psu_set_ovp a) :=
  keeps_writeCmd1A _ _ _ _ _ _

theorem keepsDo_psu_set_ocp (a : String) : keeps (do_psu_set_ocp a) :=
  keeps_writeCmd1A _ _ _ _ _ _

theorem keepsDo_psu_set_otp (a : String) : keeps (do_psu_set_otp a) :=
  keeps_writeCmd1A _ _ _ _ _ _

theorem keepsDo_psu_measure_output (a : String) :
    keeps (do_psu_measure_output a) := by
  unfold do_psu_measure_output
  refine keeps_withInstr fun h => keeps_ite _ (keeps_pr _) ?_
  exact keeps_tryAnyPrint _
    (keeps_bind (keeps_instrQuery _ _) fun _ => keeps_pr _)

theorem keepsDo_psu_protection_clear (a : String) :
    keeps (do_psu_protection_clear a) := keeps_writeCmd0A _ _ _ _

theorem keepsDo_rf_set_center_freq (a : String) :
    keeps (do_rf_set_center_freq a) := keeps_writeCmd1V _ _ _ _ _ _ _

theorem keepsDo_rf_set_span (a : String) : keeps (do_rf_set_span a) :=
  keeps_writeCmd1V _ _ _ _ _ _ _

theorem keepsDo_rf_set_power (a : String) : keeps (do_rf_set_power a) :=
  keeps_writeCmd1V _ _ _ _ _ _ _

theorem keepsDo_sa_set_rbw_vbw (a : String) : keeps (do_sa_set_rbw_vbw a) := by
  unfold do_sa_set_rbw_vbw
  refine keeps_withInstr fun h => keeps_requireArg (keeps_tryVisaOther _ _ ?_)
  rcases splitParts a with _ | ⟨x, _ | ⟨y, _ | ⟨z, r⟩⟩⟩
  · exact keeps_pr _
  · exact keeps_pr _
  · exact keeps_bind (keeps_instrWrite _ _) fun _ =>
      keeps_bind (keeps_instrWrite _ _) fun _ => keeps_pr _
  · exact keeps_pr _

theorem keepsDo_sa_read_marker (a : String) : keeps (do_sa_read_marker a) := by
  unfold do_sa_read_marker
  refine keeps_withInstr fun h => keeps_requireArg (keeps_tryVisaOther _ _ ?_)
  exact keeps_bind (keeps_instrQuery _ _) fun f =>
    keeps_bind (keeps_instrQuery _ _) fun m => keeps_pr _

theorem keepsDo_vna_set_sweep (a : String) : keeps (do_vna_set_sweep a) := by
  unfold do_vna_set_sweep
  refine keeps_withInstr fun h => keeps_requireArg (keeps_tryVisaOther _ _ ?_)
  rcases splitParts a with _ | ⟨x, _ | ⟨y, _ | ⟨z, _ | ⟨w, r⟩⟩⟩⟩
  · exact keeps_pr _
  · exact keeps_pr _
  · exact keeps_pr _
  · exact keeps_bind (keeps_instrWrite _ _) fun _ =>
      keeps_bind (keeps_instrWrite _ _) fun _ =>
        keeps_bind (keeps_instrWrite _ _) fun _ => keeps_pr _
  · exact keeps_pr _

theorem keepsDo_vna_measure_sparam (a : String) :
    keeps (do_vna_measure_sparam a) := by
  unfold do_vna_measure_sparam
  refine keeps_withInstr fun h => keeps_requireArg (keeps_tryVisaOther _ _ ?_)
  rcases splitParts a with _ | ⟨x, _ | ⟨y, _ | ⟨z, r⟩⟩⟩
  · exact keeps_pr _
  · exact keeps_pr _
  · exact keeps_bind (keeps_instrWrite _ _) fun _ =>
      keeps_bind (keeps_instrWrite _ _) fun _ => keeps_pr _
  · exact keeps_pr _

theorem keepsDo_vna_set_trace (a : String) : keeps (do_vna_set_trace a) := by
  unfold do_vna_set_trace
  refine keeps_withInstr fun h => keeps_requireArg (keeps_tryVisaOther _ _ ?_)
  rcases splitParts a with _ | ⟨x, _ | ⟨y, _ | ⟨z, _ | ⟨w, r⟩⟩⟩⟩
  · exact keeps_pr _
  · exact keeps_pr _
  · exact keeps_pr _
  · exact keeps_bind (keeps_instrWrite _ _) fun _ =>
      keeps_bind (keeps_instrWrite _ _) fun _ => keeps_pr _
  · exact keeps_pr _

theorem keepsDo_vna_query_data (a : String) : keeps (do_vna_query_data a) :=
  keeps_queryCmd0V _ _
    (fun _ => keeps_bind (keeps_pr _) fun _ =>
      keeps_bind (keeps_pr _) fun _ => keeps_pr _) _ _

theorem keepsDo_rf_screen_capture (a : String) :
    keeps (do_rf_screen_capture a) := by
  unfold do_rf_screen_capture
  refine keeps_withInstr fun h => keeps_requireArg (keeps_tryCatchM ?_ ?_)
  · refine keeps_ite _ ?_ (keeps_pr _)
    refine keeps_bind (keeps_pr _) fun _ =>
      keeps_bind (keeps_instrQueryBinary _ _) fun d => ?_
    exact keeps_ite _ (keeps_pr _)
      (keeps_bind (keeps_writeFileEff _ _) fun _ => keeps_pr _)
  · intro e
    cases e with
    | visa m => exact keeps_bind (keeps_pr _) fun _ => keeps_pr _
    | other m => exact keeps_pr _

theorem keepsDo_eload_set_mode (a : String) : keeps (do_eload_set_mode a) := by
  unfold do_eload_set_mode
  refine keeps_withInstr fun h => keeps_requireArg (keeps_tryVisaOther _ _ ?_)
  exact keeps_ite _ (keeps_pr _)
    (keeps_bind (keeps_instrWrite _ _) fun _ => keeps_pr _)

theorem keepsDo_eload_set_current (a : String) :
    keeps (do_eload_set_current a) := keeps_writeCmd1V _ _ _ _ _ _ _

theorem keepsDo_eload_set_voltage (a : String) :
    keeps (do_eload_set_voltage a) := keeps_writeCmd1V _ _ _ _ _ _ _

theorem keepsDo_eload_set_resistance (a : String) :
    keeps (do_eload_set_resistance a) := keeps_writeCmd1V _ _ _ _ _ _ _

theorem keepsDo_eload_set_power (a : String) : keeps (do_eload_set_power a) :=
  keeps_writeCmd1V _ _ _ _ _ _ _

theorem keepsDo_eload_input_on (a : String) : keeps (do_eload_input_on a) :=
  keeps_writeCmd0A _ _ _ _

theorem keepsDo_eload_input_off (a : String) : keeps (do_eload_input_off a) :=
  keeps_writeCmd0A _ _ _ _

theorem keepsDo_eload_measure_input (a : String) :
    keeps (do_eload_measure_input a) := by
  unfold do_eload_measure_input
  refine keeps_withInstr fun h => keeps_ite _ (keeps_pr _) ?_
  exact keeps_tryAnyPrint _
    (keeps_bind (keeps_instrQuery _ _) fun _ => keeps_pr _)

theorem keepsDo_eload_set_slew (a : String) : keeps (do_eload_set_slew a) :=
  keeps_writeCmd1A _ _ _ _ _ _

theorem keepsDo_eload_set_transient (a : String) :
    keeps (do_eload_set_transient a) := by
  unfold do_eload_set_transient
  refine keeps_withInstr fun h => keeps_requireArg (keeps_tryVisaOther _ _ ?_)
  rcases splitParts a with _ | ⟨x, _ | ⟨y, _ | ⟨z, _ | ⟨w, r⟩⟩⟩⟩
  · exact keeps_pr _
  · exact keeps_pr _
  · exact keeps_pr _
  · exact keeps_bind (keeps_instrWrite _ _) fun _ =>
      keeps_bind (keeps_instrWrite _ _) fun _ =>
        keeps_bind (keeps_instrWrite _ _) fun _ =>
          keeps_bind (keeps_instrWrite _ _) fun _ => keeps_pr _
  · exact keeps_pr _

theorem keepsDo_eload_set_ovl (a : String) : keeps (do_eload_set_ovl a) :=
  keeps_writeCmd1A _ _ _ _ _ _

theorem keepsDo_eload_set_opl (a : String) : keeps (do_eload_set_opl a) :=
  keeps_writeCmd1A _ _ _ _ _ _

theorem keepsDo_ping_device (a : String) : keeps (do_ping_device a) := by
  unfold do_ping_device
  refine keeps_withInstr fun h => keeps_tryCatchM ?_ ?_
  · exact keeps_bind (keeps_instrQuery _ _) fun r =>
      keeps_ite _ (keeps_pr _) (keeps_pr _)
  · intro e
    cases e <;> exact keeps_pr _

theorem keepsDo_check_capabilities (a : String) :
    keeps (do_check_capabilities a) := by
  unfold do_check_capabilities
  refine keeps_withInstr fun h => keeps_tryAnyPrint _ ?_
  refine keeps_bind (keeps_pr _) fun _ => ?_
  refine keeps_bind (keeps_tryCatchM
    (keeps_bind (keeps_instrQuery _ _) fun _ => keeps_pr _)
    (fun _ => keeps_pr _)) fun _ => ?_
  refine keeps_bind (keeps_tryCatchM
    (keeps_bind (keeps_instrQuery _ _) fun _ => keeps_pr _)
    (fun _ => keeps_pr _)) fun _ => ?_
  refine keeps_bind (keeps_probeCmds _ _) fun supported => ?_
  exact keeps_ite _ (keeps_bind (keeps_pr _) fun _ => keeps_prList _)
    (keeps_pr _)

theorem keepsDo_exit (a : String) : keeps (do_exit a) := by
  unfold do_exit
  refine keeps_bind keeps_getConsole fun c => ?_
  cases c.instrument with
  | some h =>
      exact keeps_bind
        (keeps_trySwallow (keeps_bind (keeps_pr _) fun _ => keeps_instrClose h))
        fun _ => keeps_bind (keeps_pr _) fun _ => keeps_pure 0
  | none =>
      exact keeps_bind (keeps_pure ()) fun _ =>
        keeps_bind (keeps_pr _) fun _ => keeps_pure 0

theorem keepsDo_EOF (a : String) : keeps (do_EOF a) := by
  unfold do_EOF
  exact keeps_bind (keeps_pr _) fun _ => keepsDo_exit a

/-- Frame lemma shared by the effect claims: every command except
`deviceselect` leaves the console's connection fields untouched. -/
theorem keeps_dispatch (cmd : CommandName) (a : String)
    (hne : cmd ≠ CommandName.deviceselect) : keeps (dispatch cmd a) := by
  cases cmd with
  | devicelist => exact keepsDo_devicelist a
  | deviceselect => exact absurd rfl hne
  | deviceinfo => exact keepsDo_deviceinfo a
  | id => exact keepsDo_id a
  | write => exact keepsDo_write a
  | query => exact keepsDo_query a
  | reset => exact keepsDo_reset a
  | wait_opc => exact keepsDo_wait_opc a
  | get_error => exact keepsDo_get_error a
  | dmm_func_set => exact keepsDo_dmm_func_set a
  | dmm_range_set => exact keepsDo_dmm_range_set a
  | dmm_autoranging => exact keepsDo_dmm_autoranging a
  | dmm_delay_set => exact keepsDo_dmm_delay_set a
  | dmm_resolution_set => exact keepsDo_dmm_resolution_set a
  | dmm_measure_dc_v => exact keepsDo_dmm_measure_dc_v a
  | dmm_measure_ac_v => exact keepsDo_dmm_measure_ac_v a
  | dmm_measure_dc_i => exact keepsDo_dmm_measure_dc_i a
  | dmm_measure_ac_i => exact keepsDo_dmm_measure_ac_i a
  | dmm_measure_continuity => exact keepsDo_dmm_measure_continuity a
  | dmm_measure_diode => exact keepsDo_dmm_measure_diode a
  | dmm_measure2_resistance => exact keepsDo_dmm_measure2_resistance a
  | dmm_measure4_resistance => exact keepsDo_dmm_measure4_resistance a
  | oscope_set_timebase => exact keepsDo_oscope_set_timebase a
  | oscope_set_vertscale => exact keepsDo_oscope_set_vertscale a
  | oscope_measure_param => exact keepsDo_oscope_measure_param a
  | oscope_set_trigger_source => exact keepsDo_oscope_set_trigger_source a
  | oscope_set_trigger_level => exact keepsDo_oscope_set_trigger_level a
  | oscope_set_trigger_slope => exact keepsDo_oscope_set_trigger_slope a
  | oscope_get_setup => exact keepsDo_oscope_get_setup a
  | oscope_run => exact keepsDo_oscope_run a
  | oscope_screen_capture => exact keepsDo_oscope_screen_capture a
  | oscope_capture_data => exact keepsDo_oscope_capture_data a
  | afg_set_wave => exact keepsDo_afg_set_wave a
  | afg_output_on => exact keepsDo_afg_output_on a
  | afg_output_off => exact keepsDo_afg_output_off a
  | afg_psu_slew_set => exact keepsDo_afg_psu_slew_set a
  | psu_set_voltage => exact keepsDo_psu_set_voltage a
  | psu_set_current => exact keepsDo_psu_set_current a
  | psu_output_on => exact keepsDo_psu_output_on a
  | psu_output_off => exact keepsDo_psu_output_off a
  | psu_set_ovp => exact keepsDo_psu_set_ovp a
  | psu_set_ocp => exact keepsDo_psu_set_ocp a
  | psu_set_otp => exact keepsDo_psu_set_otp a
  | psu_measure_output => exact keepsDo_psu_measure_output a
  | psu_protection_clear => exact keepsDo_psu_protection_clear a
  | rf_set_center_freq => exact keepsDo_rf_set_center_freq a
  | rf_set_span => exact keepsDo_rf_set_span a
  | rf_set_power => exact keepsDo_rf_set_power a
  | sa_set_rbw_vbw => exact keepsDo_sa_set_rbw_vbw a
  | sa_read_marker => exact keepsDo_sa_read_marker a
  | vna_set_sweep => exact keepsDo_vna_set_sweep a
  | vna_measure_sparam => exact keepsDo_vna_measure_sparam a
  | vna_set_trace => exact keepsDo_vna_set_trace a
  | vna_query_data => exact keepsDo_vna_query_data a
  | rf_screen_capture => exact keepsDo_rf_screen_capture a
  | eload_set_mode => exact keepsDo_eload_set_mode a
  | eload_set_current => exact keepsDo_eload_set_current a
  | eload_set_voltage => exact keepsDo_eload_set_voltage a
  | eload_set_resistance => exact keepsDo_eload_set_resistance a
  | eload_set_power => exact keepsDo_eload_set_power a
  | eload_input_on => exact keepsDo_eload_input_on a
  | eload_input_off => exact keepsDo_eload_input_off a
  | eload_measure_input => exact keepsDo_eload_measure_input a
  | eload_set_slew => exact keepsDo_eload_set_slew a
  | eload_set_transient => exact keepsDo_eload_set_transient a
  | eload_set_ovl => exact keepsDo_eload_set_ovl a
  | eload_set_opl => exact keepsDo_eload_set_opl a
  | ping_device => exact keepsDo_ping_device a
  | check_capabilities => exact keepsDo_check_capabilities a

/-! ## The claims -/

/-- Claim C1: for every preamble with at least 9 elements and every raw
sample list, the waveform decoding step of `oscope_capture_data` produces
exactly one (time, voltage) pair per raw sample, in order, with
`time[i] = i * preamble[5]` and
`voltage[i] = preamble[7] * (raw[i] - preamble[8])`; in particular for
`preamble[5] = 1e-6`, `preamble[7] = 0.01`, `preamble[8] = 127` and
`raw = [127, 227, 27]` the result is `[(0, 0), (1e-6, 1), (2e-6, -1)]`. -/
theorem oscope_decode_linear (pre raw : List ℚ) (x5 x7 x8 : ℚ)
    (h9 : 9 ≤ pre.length)
    (h5 : pre.get? 5 = some x5) (h7 : pre.get? 7 = some x7)
    (h8 : pre.get? 8 = some x8) :
    (decodeWaveform x5 x7 x8 raw).length = raw.length ∧
    (∀ i r, raw.get? i = some r →
      (decodeWaveform x5 x7 x8 raw).get? i = some ((i : ℚ) * x5, x7 * (r - x8))) ∧
    decodeWaveform (1 / 1000000) (1 / 100) 127 [127, 227, 27] =
      [(0, 0), (1 / 1000000, 1), (2 / 1000000, -1)] := by
  refine ⟨?_, ?_, by norm_num [decodeWaveform, List.enum, List.enumFrom]⟩
  · simp [decodeWaveform, List.enum_length]
  · intro i r hir
    simp [decodeWaveform, List.get?_eq_getElem?, List.getElem?_map,
      List.getElem?_enum]
    rw [List.get?_eq_getElem?] at hir
    simp [hir]

/-- Witness for C1 at the concrete input of the claim. -/
theorem oscope_decode_linear_witness :
    (decodeWaveform (1 / 1000000) (1 / 100) 127
      ([127, 227, 27] : List ℚ)).length = 3 ∧
    (decodeWaveform (1 / 1000000) (1 / 100) 127
      ([127, 227, 27] : List ℚ)).get? 1 = some (1 / 1000000, 1) := by
  have h := oscope_decode_linear
    [0, 0, 0, 0, 0, 1 / 1000000, 0, 1 / 100, 127] [127, 227, 27]
    (1 / 1000000) (1 / 100) 127 (by norm_num) rfl rfl rfl
  have h2 := h.2.1 1 227 rfl
  norm_num at h2
  exact ⟨h.1, h2⟩

/-- Claim C9: for every console state (connection open or not) and every
transport outcome (so also when closing the connection fails), the exit
command raises `SystemExit` with code 0 — no exception of its own escapes —
and the `__main__` block turns that, as well as a top-level
`KeyboardInterrupt`, into process exit status 0.  (History-file I/O is
best-effort inside `try/except: pass` and belongs to the out-of-scope
readline subsystem.) -/
theorem exit_always_status_zero (arg : String) (c : ConsoleState)
    (oracle : List TransportOutcome) :
    (do_exit arg (initSt c oracle)).1 = Except.ok 0 ∧
    mainExitCode (LoopOutcome.sysExit 0) = 0 ∧
    mainExitCode LoopOutcome.keyboardInterrupt = 0 := by
  obtain ⟨rm, instr, sel⟩ := c
  cases instr with
  | none => exact ⟨rfl, rfl, rfl⟩
  | some h =>
      rcases oracle with _ | ⟨o, rest⟩
      · exact ⟨rfl, rfl, rfl⟩
      · cases o <;> exact ⟨rfl, rfl, rfl⟩

/-- Claim C8: every command other than the connection-management commands
(`devicelist`, `deviceselect`, `deviceinfo`; `exit`/EOF cleanup is
modelled separately and also proven frame-preserving in `keepsDo_exit`)
leaves the console's connection state — the instrument handle and the
selected device id — unchanged, for every argument and every transport
outcome. -/
theorem commands_keep_connection_state (cmd : CommandName) (arg : String)
    (c : ConsoleState) (oracle : List TransportOutcome)
    (hmgmt : cmd ≠ CommandName.devicelist ∧ cmd ≠ CommandName.deviceselect ∧
      cmd ≠ CommandName.deviceinfo) :
    (runCmd (dispatch cmd arg) c oracle).console = c :=
  keeps_dispatch cmd arg hmgmt.2.1 (initSt c oracle)

/-- Witness for C8: a `write` on an open connection whose transport write
fails leaves the connection fields untouched. -/
theorem commands_keep_connection_state_witness :
    (CommandName.write ≠ CommandName.devicelist ∧
     CommandName.write ≠ CommandName.deviceselect ∧
     CommandName.write ≠ CommandName.deviceinfo) ∧
    (runCmd (dispatch CommandName.write "*RST")
        ⟨true, some "GPIB0::2::INSTR", some "GPIB0::2::INSTR"⟩
        [TransportOutcome.visaErr "VI_ERROR_TMO"]).console =
      ⟨true, some "GPIB0::2::INSTR", some "GPIB0::2::INSTR"⟩ :=
  ⟨by decide, commands_keep_connection_state CommandName.write "*RST"
    ⟨true, some "GPIB0::2::INSTR", some "GPIB0::2::INSTR"⟩
    [TransportOutcome.visaErr "VI_ERROR_TMO"] (by decide)⟩

/-- Claim C3: every instrument-facing command invoked while no connection
is active (for every argument and oracle) performs zero transport calls
and prints exactly one "no device selected" message (one of the two
variants used in the source). -/
theorem no_connection_guarded_noop (cmd : CommandName) (arg : String)
    (c : ConsoleState) (oracle : List TransportOutcome)
    (hif : instrumentFacing cmd = true) (hnone : c.instrument = none) :
    (runCmd (dispatch cmd arg) c oracle).calls = [] ∧
    ((runCmd (dispatch cmd arg) c oracle).prints = [noDeviceMsg] ∨
     (runCmd (dispatch cmd arg) c oracle).prints = [noDeviceFullMsg]) := by
  obtain ⟨rm, instr, sel⟩ := c
  simp only [ConsoleState.instrument] at hnone
  subst hnone
  cases cmd <;>
    first
      | exact absurd hif (by decide)
      | exact ⟨rfl, Or.inl rfl⟩
      | exact ⟨rfl, Or.inr rfl⟩

/-- Witness for C3: `id` with no device selected prints the guard message
and makes no transport call. -/
theorem no_connection_guarded_noop_witness :
    (instrumentFacing CommandName.id = true ∧
      (⟨true, none, none⟩ : ConsoleState).instrument = none) ∧
    ((runCmd (dispatch CommandName.id "") ⟨true, none, none⟩ []).calls = [] ∧
     ((runCmd (dispatch CommandName.id "") ⟨true, none, none⟩ []).prints =
        [noDeviceMsg] ∨
      (runCmd (dispatch CommandName.id "") ⟨true, none, none⟩ []).prints =
        [noDeviceFullMsg])) :=
  ⟨⟨rfl, rfl⟩, no_connection_guarded_noop CommandName.id "" ⟨true, none, none⟩
    [] rfl rfl⟩

/-- The composite-argument commands: those that unpack their argument into
a fixed number of comma-separated parts. -/
inductive CompositeCmd where
  | oscope_set_vertscale | oscope_measure_param | oscope_set_trigger_level
  | oscope_set_trigger_slope | afg_set_wave | sa_set_rbw_vbw | vna_set_sweep
  | vna_measure_sparam | vna_set_trace | eload_set_transient
deriving DecidableEq

/-- Number of comma-separated parts each composite command unpacks. -/
def compositeArity : CompositeCmd → Nat
  | CompositeCmd.oscope_set_vertscale => 2
  | CompositeCmd.oscope_measure_param => 2
  | CompositeCmd.oscope_set_trigger_level => 2
  | CompositeCmd.oscope_set_trigger_slope => 2
  | CompositeCmd.afg_set_wave => 3
  | CompositeCmd.sa_set_rbw_vbw => 2
  | CompositeCmd.vna_set_sweep => 3
  | CompositeCmd.vna_measure_sparam => 2
  | CompositeCmd.vna_set_trace => 3
  | CompositeCmd.eload_set_transient => 3

/-- The format-error message each composite command prints from its
`except ValueError` handler. -/
def compositeFmtMsg : CompositeCmd → String
  | CompositeCmd.oscope_set_vertscale =>
      "Invalid format. Use: <channel>,<volts_per_div> (e.g., 1,0.5)"
  | CompositeCmd.oscope_measure_param =>
      "Invalid format. Use: <channel>,<parameter> (e.g., 1,FREQ)"
  | CompositeCmd.oscope_set_trigger_level =>
      "Invalid format. Use: <channel>,<voltage> (e.g., 1,0.5)"
  | CompositeCmd.oscope_set_trigger_slope =>
      "Invalid format. Use: <channel>,<POS|NEG|EITH> (e.g., 1,POS)"
  | CompositeCmd.afg_set_wave =>
      "Invalid format. Use: afg_set_wave \"WAVE,FREQ,AMPL\" (e.g., SIN,1000,1.0)"
  | CompositeCmd.sa_set_rbw_vbw =>
      "Invalid format. Use: <rbw>,<vbw> (e.g., 10kHz,3kHz)"
  | CompositeCmd.vna_set_sweep =>
      "Invalid format. Use: <start_freq>,<stop_freq>,<points> (e.g., 1GHz,2GHz,201)"
  | CompositeCmd.vna_measure_sparam =>
      "Invalid format. Use: <sparam>,<format> (e.g., S21,MLOG)"
  | CompositeCmd.vna_set_trace =>
      "Invalid format. Use: <trace_num>,<sparam>,<window_num> (e.g., 2,S21,1)"
  | CompositeCmd.eload_set_transient =>
      "Invalid format. Use: <level_A>,<level_B>,<pulse_width> (e.g., 0.5A,2.0A,10ms)"

/-- The console command run by each composite command name. -/
def compositeRun : CompositeCmd → String → M Unit
  | CompositeCmd.oscope_set_vertscale, a => do_oscope_set_vertscale a
  | CompositeCmd.oscope_measure_param, a => do_oscope_measure_param a
  | CompositeCmd.oscope_set_trigger_level, a => do_oscope_set_trigger_level a
  | CompositeCmd.oscope_set_trigger_slope, a => do_oscope_set_trigger_slope a
  | CompositeCmd.afg_set_wave, a => do_afg_set_wave a
  | CompositeCmd.sa_set_rbw_vbw, a => do_sa_set_rbw_vbw a
  | CompositeCmd.vna_set_sweep, a => do_vna_set_sweep a
  | CompositeCmd.vna_measure_sparam, a => do_vna_measure_sparam a
  | CompositeCmd.vna_set_trace, a => do_vna_set_trace a
  | CompositeCmd.eload_set_transient, a => do_eload_set_transient a

/-- Claim C5: every composite-argument command invoked with an active
connection and a non-empty argument that does not split on the comma
separator into the required number of parts prints exactly its format
error and performs zero transport calls. -/
theorem composite_malformed_noop (cmd : CompositeCmd) (arg : String)
    (rm : Bool) (sel : Option String) (h : String)
    (oracle : List TransportOutcome) (hne : arg ≠ "")
    (hsplit : (splitParts arg).length ≠ compositeArity cmd) :
    (runCmd (compositeRun cmd arg) ⟨rm, some h, sel⟩ oracle).calls = [] ∧
    (runCmd (compositeRun cmd arg) ⟨rm, some h, sel⟩ oracle).prints =
      [compositeFmtMsg cmd] := by
  cases cmd <;>
    rcases hsp : splitParts arg with _ | ⟨x, _ | ⟨y, _ | ⟨z, _ | ⟨w, r⟩⟩⟩⟩ <;>
      first
        | exact absurd (by rw [hsp]; rfl) hsplit
        | (simp only [compositeRun, compositeFmtMsg, do_oscope_set_vertscale,
              do_oscope_measure_param, do_oscope_set_trigger_level,
              do_oscope_set_trigger_slope, do_afg_set_wave, do_sa_set_rbw_vbw,
              do_vna_set_sweep, do_vna_measure_sparam, do_vna_set_trace,
              do_eload_set_transient, runCmd, initSt, withInstr, requireArg,
              tryVisaOther, tryCatchM, M.bind_def, M.bind, M.pure_def, M.pure,
              getConsole, pr, modifySt, List.nil_append, hsp, if_neg hne]
           exact ⟨trivial, trivial⟩)

/-- Witness for C5: `oscope_set_vertscale` with the separator missing. -/
theorem composite_malformed_noop_witness :
    ("1 0.5" ≠ "" ∧
      (splitParts "1 0.5").length ≠ compositeArity CompositeCmd.oscope_set_vertscale) ∧
    ((runCmd (compositeRun CompositeCmd.oscope_set_vertscale "1 0.5")
        ⟨true, some "GPIB0::2::INSTR", some "GPIB0::2::INSTR"⟩ []).calls = [] ∧
     (runCmd (compositeRun CompositeCmd.oscope_set_vertscale "1 0.5")
        ⟨true, some "GPIB0::2::INSTR", some "GPIB0::2::INSTR"⟩ []).prints =
       [compositeFmtMsg CompositeCmd.oscope_set_vertscale]) :=
  ⟨⟨by decide, by decide⟩,
    composite_malformed_noop CompositeCmd.oscope_set_vertscale "1 0.5" true
      (some "GPIB0::2::INSTR") "GPIB0::2::INSTR" [] (by decide) (by decide)⟩

/-- Claim C7: with an active connection, both screen-capture commands
reject a filename whose extension (text after the last dot, compared
case-insensitively) is not PNG/JPEG/JPG — zero transport calls, no file
written, an unsupported-format message — and when the extension is
accepted but the instrument returns an empty binary block, they report an
error and write no file. -/
theorem screen_capture_guards :
    (∀ (fname : String) (rm : Bool) (sel : Option String) (h : String)
        (oracle : List TransportOutcome),
      fname ≠ "" →
      fileExtension (pyTrim fname) ≠ "PNG" →
      fileExtension (pyTrim fname) ≠ "JPEG" →
      fileExtension (pyTrim fname) ≠ "JPG" →
      ((runCmd (do_oscope_screen_capture fname) ⟨rm, some h, sel⟩ oracle).calls = [] ∧
       (runCmd (do_oscope_screen_capture fname) ⟨rm, some h, sel⟩ oracle).files = [] ∧
       (runCmd (do_oscope_screen_capture fname) ⟨rm, some h, sel⟩ oracle).prints =
         ["Unsupported format for screen capture. Use PNG or JPEG/JPG."]) ∧
      ((runCmd (do_rf_screen_capture fname) ⟨rm, some h, sel⟩ oracle).calls = [] ∧
       (runCmd (do_rf_screen_capture fname) ⟨rm, some h, sel⟩ oracle).files = [] ∧
       (runCmd (do_rf_screen_capture fname) ⟨rm, some h, sel⟩ oracle).prints =
         ["Unsupported format for screen capture. Use PNG or JPEG/JPG."])) ∧
    (∀ (fname : String) (rm : Bool) (sel : Option String) (h : String)
        (rest : List TransportOutcome),
      fname ≠ "" →
      (fileExtension (pyTrim fname) = "PNG" ∨
       fileExtension (pyTrim fname) = "JPEG" ∨
       fileExtension (pyTrim fname) = "JPG") →
      ((runCmd (do_oscope_screen_capture fname) ⟨rm, some h, sel⟩
          (TransportOutcome.ok "" :: rest)).files = [] ∧
       (runCmd (do_oscope_screen_capture fname) ⟨rm, some h, sel⟩
          (TransportOutcome.ok "" :: rest)).prints =
         ["Requesting scope screen data (" ++ fileExtension (pyTrim fname) ++ ")...",
          "Error: Received no image data from the instrument."]) ∧
      ((runCmd (do_rf_screen_capture fname) ⟨rm, some h, sel⟩
          (TransportOutcome.ok "" :: rest)).files = [] ∧
       (runCmd (do_rf_screen_capture fname) ⟨rm, some h, sel⟩
          (TransportOutcome.ok "" :: rest)).prints =
         ["Requesting screen data (" ++ fileExtension (pyTrim fname) ++ ")...",
          "Error: Received no image data from the instrument."])) := by
  constructor
  · intro fname rm sel h oracle hne h1 h2 h3
    have hOr : ¬(fileExtension (pyTrim fname) = "PNG" ∨
        fileExtension (pyTrim fname) = "JPEG" ∨
        fileExtension (pyTrim fname) = "JPG") := by
      simp [h1, h2, h3]
    constructor <;>
      (simp only [runCmd, initSt, do_oscope_screen_capture,
        do_rf_screen_capture, withInstr, requireArg, tryCatchM, M.bind_def,
        M.bind, M.pure_def, M.pure, getConsole, pr, modifySt,
        List.nil_append, if_neg hne, if_neg hOr]
       exact ⟨trivial, trivial, trivial⟩)
  · intro fname rm sel h rest hne hext
    rcases hext with hp | hp | hp <;>
      (constructor <;>
        (simp only [runCmd, initSt, do_oscope_screen_capture,
           do_rf_screen_capture, withInstr, requireArg, tryCatchM, M.bind_def,
           M.bind, M.pure_def, M.pure, getConsole, pr, modifySt, recordCall,
           takeOutcome, unwrap, instrQueryBinary, List.nil_append, hp,
           if_neg hne]
         exact ⟨rfl, rfl⟩))

/-- Witness for C7: a `.bmp` filename is rejected without transport
activity, and a `.png` capture that returns no bytes writes no file. -/
theorem screen_capture_guards_witness :
    (("scope.bmp" : String) ≠ "" ∧
      fileExtension (pyTrim "scope.bmp") ≠ "PNG" ∧
      fileExtension (pyTrim "scope.bmp") ≠ "JPEG" ∧
      fileExtension (pyTrim "scope.bmp") ≠ "JPG") ∧
    (runCmd (do_oscope_screen_capture "scope.bmp")
        ⟨true, some "USB0::INSTR", some "USB0::INSTR"⟩ []).calls = [] ∧
    (("scope.png" : String) ≠ "" ∧ fileExtension (pyTrim "scope.png") = "PNG") ∧
    (runCmd (do_rf_screen_capture "scope.png")
        ⟨true, some "USB0::INSTR", some "USB0::INSTR"⟩
        [TransportOutcome.ok ""]).files = [] :=
  ⟨⟨by decide, by decide, by decide, by decide⟩,
    ((screen_capture_guards.1 "scope.bmp" true (some "USB0::INSTR")
      "USB0::INSTR" [] (by decide) (by decide) (by decide) (by decide)).1).1,
    ⟨by decide, by decide⟩,
    ((screen_capture_guards.2 "scope.png" true (some "USB0::INSTR")
      "USB0::INSTR" [] (by decide) (Or.inl (by decide))).2).1⟩

/-- Claim C6: `oscope_capture_data` (with an active connection and a
CSV/TXT filename) rejects, without letting any exception escape and
without writing a file, both a preamble response that parses to fewer than
9 floats (the index access raises, caught at the command boundary) and a
raw-sample response whose numeric parsing fails (the `float()` conversion
raises, caught likewise); in both cases exactly one error line is
printed. -/
theorem capture_data_rejects_bad_input :
    (∀ (fname pstr : String) (pre : List ℚ) (rm : Bool) (sel : Option String)
        (h : String) (rest : List TransportOutcome),
      fname ≠ "" →
      (fileExtension (pyTrim fname) = "CSV" ∨ fileExtension (pyTrim fname) = "TXT") →
      parseFloats (pyTokens pstr) = Except.ok pre →
      pre.length < 9 →
      (runRes (do_oscope_capture_data fname) ⟨rm, some h, sel⟩
          (TransportOutcome.ok pstr :: rest) = Except.ok () ∧
       (runCmd (do_oscope_capture_data fname) ⟨rm, some h, sel⟩
          (TransportOutcome.ok pstr :: rest)).files = [] ∧
       (runCmd (do_oscope_capture_data fname) ⟨rm, some h, sel⟩
          (TransportOutcome.ok pstr :: rest)).prints =
         ["An unexpected error occurred during data processing: list index out of range"])) ∧
    (∀ (fname pstr w dstr m : String) (pre : List ℚ) (rm : Bool)
        (sel : Option String) (h : String) (rest : List TransportOutcome),
      fname ≠ "" →
      (fileExtension (pyTrim fname) = "CSV" ∨ fileExtension (pyTrim fname) = "TXT") →
      parseFloats (pyTokens pstr) = Except.ok pre →
      9 ≤ pre.length →
      parseFloats (pyTokens dstr) = Except.error m →
      (runRes (do_oscope_capture_data fname) ⟨rm, some h, sel⟩
          (TransportOutcome.ok pstr :: TransportOutcome.ok w ::
            TransportOutcome.ok dstr :: rest) = Except.ok () ∧
       (runCmd (do_oscope_capture_data fname) ⟨rm, some h, sel⟩
          (TransportOutcome.ok pstr :: TransportOutcome.ok w ::
            TransportOutcome.ok dstr :: rest)).files = [] ∧
       (runCmd (do_oscope_capture_data fname) ⟨rm, some h, sel⟩
          (TransportOutcome.ok pstr :: TransportOutcome.ok w ::
            TransportOutcome.ok dstr :: rest)).prints =
         ["An unexpected error occurred during data processing: " ++ m])) := by
  constructor
  · intro fname pstr pre rm sel h rest hne hext hpre hlen
    rcases hext with hc | hc <;>
      rcases pre with _ | ⟨a0, _ | ⟨a1, _ | ⟨a2, _ | ⟨a3, _ | ⟨a4, _ | ⟨a5,
        _ | ⟨a6, _ | ⟨a7, _ | ⟨a8, tl⟩⟩⟩⟩⟩⟩⟩⟩⟩ <;>
      first
        | (exfalso; simp only [List.length] at hlen; omega)
        | (simp only [runRes, runCmd, initSt, do_oscope_capture_data,
             withInstr, requireArg, tryCatchM, M.bind_def, M.bind, M.pure_def,
             M.pure, M.run_pure, instMonadM, getConsole, pr, modifySt,
             recordCall, takeOutcome, unwrap, instrQuery, pyFloatListM,
             pyIndex, throwE, List.nil_append, List.get?, ne_eq, reduceIte,
             String.reduceEq, not_true, not_false_iff, false_and, and_false,
             if_false, if_true, and_self, hpre, hc, if_neg hne]
           exact ⟨by first | rfl | trivial, by first | rfl | trivial,
             by first | rfl | trivial⟩)
  · intro fname pstr w dstr m pre rm sel h rest hne hext hpre hlen herr
    rcases hext with hc | hc <;>
      rcases pre with _ | ⟨a0, _ | ⟨a1, _ | ⟨a2, _ | ⟨a3, _ | ⟨a4, _ | ⟨a5,
        _ | ⟨a6, _ | ⟨a7, _ | ⟨a8, tl⟩⟩⟩⟩⟩⟩⟩⟩⟩ <;>
      first
        | (exfalso; simp only [List.length] at hlen; omega)
        | (simp only [runRes, runCmd, initSt, do_oscope_capture_data,
             withInstr, requireArg, tryCatchM, M.bind_def, M.bind, M.pure_def,
             M.pure, M.run_pure, instMonadM, getConsole, pr, modifySt,
             recordCall, takeOutcome, unwrap, instrQuery, instrWrite,
             pyFloatListM, pyIndex, throwE, List.nil_append, List.get?, ne_eq,
             reduceIte, String.reduceEq, not_true, not_false_iff, false_and,
             and_false, if_false, if_true, and_self, hpre, herr, hc,
             if_neg hne]
           try exact ⟨by first | rfl | trivial, by first | rfl | trivial,
             by first | rfl | trivial⟩)

/-- Witness for C6: a 3-element preamble is rejected, and a raw-sample
string containing `x` is rejected, with no file written either way. -/
theorem capture_data_rejects_bad_input_witness :
    (("wave.csv" : String) ≠ "" ∧
      (fileExtension (pyTrim "wave.csv") = "CSV" ∨
       fileExtension (pyTrim "wave.csv") = "TXT") ∧
      parseFloats (pyTokens "1,2,3") =
        Except.ok [(digitsVal ['1'] : ℚ) * (10 : ℚ) ^ (0 : ℤ),
          (digitsVal ['2'] : ℚ) * (10 : ℚ) ^ (0 : ℤ),
          (digitsVal ['3'] : ℚ) * (10 : ℚ) ^ (0 : ℤ)] ∧
      ([(digitsVal ['1'] : ℚ) * (10 : ℚ) ^ (0 : ℤ),
        (digitsVal ['2'] : ℚ) * (10 : ℚ) ^ (0 : ℤ),
        (digitsVal ['3'] : ℚ) * (10 : ℚ) ^ (0 : ℤ)] : List ℚ).length < 9) ∧
    (runCmd (do_oscope_capture_data "wave.csv")
        ⟨true, some "USB0::INSTR", some "USB0::INSTR"⟩
        [TransportOutcome.ok "1,2,3"]).files = [] ∧
    (parseFloats (pyTokens "1,x") =
        Except.error ("could not convert string to float: " ++ "x")) ∧
    (runCmd (do_oscope_capture_data "wave.csv")
        ⟨true, some "USB0::INSTR", some "USB0::INSTR"⟩
        [TransportOutcome.ok "0,0,0,0,0,0,0,0,0",
         TransportOutcome.ok "", TransportOutcome.ok "1,x"]).files = [] := by
  refine ⟨⟨by decide, Or.inl (by decide), rfl, by decide⟩, ?_, rfl, ?_⟩
  · exact ((capture_data_rejects_bad_input.1 "wave.csv" "1,2,3" _ true
      (some "USB0::INSTR") "USB0::INSTR" [] (by decide) (Or.inl (by decide))
      rfl (by decide)).2).1
  · exact ((capture_data_rejects_bad_input.2 "wave.csv" "0,0,0,0,0,0,0,0,0"
      "" "1,x" ("could not convert string to float: " ++ "x") _ true
      (some "USB0::INSTR") "USB0::INSTR" [] (by decide) (Or.inl (by decide))
      rfl (by decide) rfl).2).1

/-! ### Digit-count facts about the `%.6e` formatter (for C4) -/

theorem dec_dig_ne_e (x : Nat) :
    (decide (Nat.digitChar (x % 10) ≠ 'e')) = true := by
  have H : ∀ n, n < 10 → (decide (Nat.digitChar n ≠ 'e')) = true := by decide
  exact H _ (Nat.mod_lt _ (by norm_num))

theorem dec_dig_ne_dot (x : Nat) :
    (decide (Nat.digitChar (x % 10) ≠ '.')) = true := by
  have H : ∀ n, n < 10 → (decide (Nat.digitChar n ≠ '.')) = true := by decide
  exact H _ (Nat.mod_lt _ (by norm_num))

theorem dig_isDigit (x : Nat) : (Nat.digitChar (x % 10)).isDigit = true := by
  have H : ∀ n, n < 10 → (Nat.digitChar n).isDigit = true := by decide
  exact H _ (Nat.mod_lt _ (by norm_num))

theorem dig_ne_e (x : Nat) : ¬(Nat.digitChar (x % 10) = 'e') := by
  have H : ∀ n, n < 10 → ¬(Nat.digitChar n = 'e') := by decide
  exact H _ (Nat.mod_lt _ (by norm_num))

theorem dig_ne_dot (x : Nat) : ¬(Nat.digitChar (x % 10) = '.') := by
  have H : ∀ n, n < 10 → ¬(Nat.digitChar n = '.') := by decide
  exact H _ (Nat.mod_lt _ (by norm_num))

/-- Every number formatted by the `%.6e` model shows exactly 7 significant
digits in its mantissa: 1 before the decimal point and 6 after it. -/
theorem sciChars_digit_counts (q : ℚ) :
    digitsBeforeE (sciChars q) = 7 ∧ digitsAfterDot (sciChars q) = 6 := by
  unfold sciChars digitsBeforeE digitsAfterDot fracChars
  by_cases hq : q < 0 <;>
    simp [hq, digitsBeforeE, List.takeWhile_cons, List.dropWhile_cons,
      List.filter_cons, dec_dig_ne_e, dec_dig_ne_dot, dig_isDigit, dig_ne_e,
      dig_ne_dot]

theorem fmtSci6_one : fmtSci6 1 = "1.000000e+00" := by
  have hlog : sciExponent 1 = 0 := by
    simp [sciExponent, Int.log_one_right]
  have hsc : sciScaled 1 = 10 ^ 6 := by
    rw [sciScaled, hlog]
    norm_num [roundHalfEven]
  have hme : sciMantExp 1 = (10 ^ 6, 0) := by
    rw [sciMantExp, hsc, hlog]
    norm_num
  rw [fmtSci6, sciChars, hme]
  norm_num [fracChars, expChars]
  decide

theorem fmtSci6_zero : fmtSci6 0 = "0.000000e+00" := by
  have hlog : sciExponent 0 = 0 := by
    simp [sciExponent, Int.log_zero_right]
  have hsc : sciScaled 0 = 0 := by
    rw [sciScaled, hlog]
    norm_num [roundHalfEven]
  have hme : sciMantExp 0 = (0, 0) := by
    rw [sciMantExp, hsc, hlog]
    norm_num
  rw [fmtSci6, sciChars, hme]
  norm_num [fracChars, expChars]
  decide

/-- Counterexample for C4 as stated: the TXT export renders each number
with `%.6e`, whose mantissa carries 7 significant digits, not 6 — at the
decoded pair (0, 1) the exported line is
`0.000000e+00<TAB>1.000000e+00` and the nonzero entry shows 7 digits. -/
theorem txt_export_six_sigdigits_counterexample :
    txtContent [(0, 1)] =
      "Time (s)\tVoltage (V)\n0.000000e+00\t1.000000e+00\n" ∧
    digitsBeforeE ("1.000000e+00".toList) = 7 ∧
    digitsBeforeE ("1.000000e+00".toList) ≠ 6 := by
  refine ⟨?_, by decide, by decide⟩
  simp [txtContent, txtLines, fmtSci6_zero, fmtSci6_one, String.join]

/-- Claim C4, amended: the TXT export writes the fixed header then one
tab-delimited line per decoded pair with each number in `%.6e` scientific
notation — six digits after the decimal point, hence seven significant
digits, not six — and the CSV export hands `csv.writer` the header row
`Time (s)`,`Voltage (V)` followed by one row per pair. -/
theorem capture_data_export_format :
    (∀ q : ℚ, digitsBeforeE (sciChars q) = 7 ∧ digitsAfterDot (sciChars q) = 6) ∧
    (∀ (fname pstr w dstr : String) (pre raw : List ℚ) (x5 x7 x8 : ℚ)
        (rm : Bool) (sel : Option String) (h : String)
        (rest : List TransportOutcome),
      fname ≠ "" →
      parseFloats (pyTokens pstr) = Except.ok pre →
      9 ≤ pre.length →
      pre.get? 5 = some x5 → pre.get? 7 = some x7 → pre.get? 8 = some x8 →
      parseFloats (pyTokens dstr) = Except.ok raw →
      (fileExtension (pyTrim fname) = "TXT" →
        (runCmd (do_oscope_capture_data fname) ⟨rm, some h, sel⟩
            (TransportOutcome.ok pstr :: TransportOutcome.ok w ::
              TransportOutcome.ok dstr :: rest)).files =
          [(pyTrim fname, FileContent.text
            ("Time (s)\tVoltage (V)\n" ++
              String.join ((decodeWaveform x5 x7 x8 raw).map fun p =>
                fmtSci6 p.1 ++ "\t" ++ fmtSci6 p.2 ++ "\n")))]) ∧
      (fileExtension (pyTrim fname) = "CSV" →
        (runCmd (do_oscope_capture_data fname) ⟨rm, some h, sel⟩
            (TransportOutcome.ok pstr :: TransportOutcome.ok w ::
              TransportOutcome.ok dstr :: rest)).files =
          [(pyTrim fname, FileContent.csvFile ["Time (s)", "Voltage (V)"]
            (decodeWaveform x5 x7 x8 raw))])) := by
  constructor
  · exact sciChars_digit_counts
  · intro fname pstr w dstr pre raw x5 x7 x8 rm sel h rest hne hpre hlen
      h5 h7 h8 hraw
    rcases pre with _ | ⟨a0, _ | ⟨a1, _ | ⟨a2, _ | ⟨a3, _ | ⟨a4, _ | ⟨a5,
      _ | ⟨a6, _ | ⟨a7, _ | ⟨a8, tl⟩⟩⟩⟩⟩⟩⟩⟩⟩ <;>
      first
        | (exfalso; simp only [List.length] at hlen; omega)
        | (simp only [List.get?] at h5 h7 h8
           obtain rfl : a5 = x5 := Option.some.inj h5
           obtain rfl : a7 = x7 := Option.some.inj h7
           obtain rfl : a8 = x8 := Option.some.inj h8
           constructor <;>
             (intro hc
              simp only [runCmd, initSt, do_oscope_capture_data, withInstr,
                requireArg, tryCatchM, M.bind_def, M.bind, M.pure_def, M.pure,
                M.run_pure, instMonadM, getConsole, pr, modifySt, recordCall,
                takeOutcome, unwrap, instrQuery, instrWrite, writeFileEff,
                pyFloatListM, pyIndex, throwE, txtContent, txtLines,
                List.nil_append, List.get?, ne_eq, reduceIte, String.reduceEq,
                not_true, not_false_iff, false_and, and_false, if_false,
                if_true, and_self, hpre, hraw, hc, if_neg hne]
              try first | rfl | trivial))

/-- Witness for C4 (amended): a concrete TXT capture writes exactly the
header plus the formatted line for the single decoded pair. -/
theorem capture_data_export_format_witness :
    (("wave.txt" : String) ≠ "" ∧
      fileExtension (pyTrim "wave.txt") = "TXT" ∧
      parseFloats (pyTokens "0,0,0,0,0,0,0,1,0") =
        Except.ok [0 * (10 : ℚ) ^ (0 : ℤ), 0 * (10 : ℚ) ^ (0 : ℤ),
          0 * (10 : ℚ) ^ (0 : ℤ), 0 * (10 : ℚ) ^ (0 : ℤ),
          0 * (10 : ℚ) ^ (0 : ℤ), 0 * (10 : ℚ) ^ (0 : ℤ),
          0 * (10 : ℚ) ^ (0 : ℤ), (digitsVal ['1'] : ℚ) * (10 : ℚ) ^ (0 : ℤ),
          0 * (10 : ℚ) ^ (0 : ℤ)]) ∧
    (runCmd (do_oscope_capture_data "wave.txt")
        ⟨true, some "USB0::INSTR", some "USB0::INSTR"⟩
        [TransportOutcome.ok "0,0,0,0,0,0,0,1,0", TransportOutcome.ok "",
         TransportOutcome.ok "1"]).files =
      [(pyTrim "wave.txt", FileContent.text
        ("Time (s)\tVoltage (V)\n" ++
          String.join ((decodeWaveform (0 * (10 : ℚ) ^ (0 : ℤ))
              ((digitsVal ['1'] : ℚ) * (10 : ℚ) ^ (0 : ℤ))
              (0 * (10 : ℚ) ^ (0 : ℤ))
              [(digitsVal ['1'] : ℚ) * (10 : ℚ) ^ (0 : ℤ)]).map fun p =>
            fmtSci6 p.1 ++ "\t" ++ fmtSci6 p.2 ++ "\n")))] := by
  have hd : ((0 : ℚ) : ℚ) = 0 * (10 : ℚ) ^ (0 : ℤ) := by norm_num
  refine ⟨⟨by decide, by decide, rfl⟩, ?_⟩
  exact ((capture_data_export_format.2 "wave.txt" "0,0,0,0,0,0,0,1,0" ""
    "1" _ _ _ _ _ true (some "USB0::INSTR") "USB0::INSTR" []
    (by decide) rfl (by decide) rfl rfl rfl rfl).1) (by decide)

/-- Counterexample for C2 as stated: with a connection already open,
`deviceselect` of an address whose open fails does NOT leave the
connection state as if no selection had been attempted — the previous
handle and device id are closed and cleared first, so the console ends
disconnected instead of still holding the old connection. -/
theorem deviceselect_failed_open_counterexample :
    (runCmd (do_deviceselect "BAD")
        ⟨true, some "GPIB0::1::INSTR", some "GPIB0::1::INSTR"⟩
        [TransportOutcome.ok "",
         TransportOutcome.visaErr "VI_ERROR_RSRC_NFND"]).console ≠
      ⟨true, some "GPIB0::1::INSTR", some "GPIB0::1::INSTR"⟩ ∧
    (runCmd (do_deviceselect "BAD")
        ⟨true, some "GPIB0::1::INSTR", some "GPIB0::1::INSTR"⟩
        [TransportOutcome.ok "",
         TransportOutcome.visaErr "VI_ERROR_RSRC_NFND"]).console =
      ⟨true, none, none⟩ :=
  ⟨by decide, by decide⟩

/-- Claim C2, amended: `deviceselect` on a non-empty address whose open
attempt fails (VISA error or any other exception, after any close
outcome for a previously open handle) leaves the console in the
disconnected state — instrument handle and selected device id both
`None` — without raising past the command boundary; this coincides with
the state before the call exactly when no connection was open
beforehand. -/
theorem deviceselect_failed_open_disconnects :
    (∀ (addr h : String) (sel : Option String) (m : String)
        (o1 : TransportOutcome) (rest : List TransportOutcome),
      addr ≠ "" →
      ((runCmd (do_deviceselect addr) ⟨true, some h, sel⟩
          (o1 :: TransportOutcome.visaErr m :: rest)).console =
        ⟨true, none, none⟩ ∧
       (runCmd (do_deviceselect addr) ⟨true, some h, sel⟩
          (o1 :: TransportOutcome.visaErr m :: rest)).prints =
         ["Error connecting to device \x27" ++ stripQuotes (pyTrim addr) ++
           "\x27: " ++ m] ∧
       runRes (do_deviceselect addr) ⟨true, some h, sel⟩
          (o1 :: TransportOutcome.visaErr m :: rest) = Except.ok ()) ∧
      ((runCmd (do_deviceselect addr) ⟨true, some h, sel⟩
          (o1 :: TransportOutcome.otherErr m :: rest)).console =
        ⟨true, none, none⟩ ∧
       (runCmd (do_deviceselect addr) ⟨true, some h, sel⟩
          (o1 :: TransportOutcome.otherErr m :: rest)).prints =
         [unexpectedMsg m] ∧
       runRes (do_deviceselect addr) ⟨true, some h, sel⟩
          (o1 :: TransportOutcome.otherErr m :: rest) = Except.ok ())) ∧
    (∀ (addr m : String) (rest : List TransportOutcome),
      addr ≠ "" →
      ((runCmd (do_deviceselect addr) ⟨true, none, none⟩
          (TransportOutcome.visaErr m :: rest)).console = ⟨true, none, none⟩ ∧
       (runCmd (do_deviceselect addr) ⟨true, none, none⟩
          (TransportOutcome.visaErr m :: rest)).prints =
         ["Error connecting to device \x27" ++ stripQuotes (pyTrim addr) ++
           "\x27: " ++ m] ∧
       runRes (do_deviceselect addr) ⟨true, none, none⟩
          (TransportOutcome.visaErr m :: rest) = Except.ok ()) ∧
      ((runCmd (do_deviceselect addr) ⟨true, none, none⟩
          (TransportOutcome.otherErr m :: rest)).console = ⟨true, none, none⟩ ∧
       (runCmd (do_deviceselect addr) ⟨true, none, none⟩
          (TransportOutcome.otherErr m :: rest)).prints = [unexpectedMsg m] ∧
       runRes (do_deviceselect addr) ⟨true, none, none⟩
          (TransportOutcome.otherErr m :: rest) = Except.ok ())) := by
  constructor
  · intro addr h sel m o1 rest hne
    constructor <;>
      (cases o1 <;>
        (simp only [runCmd, runRes, initSt, do_deviceselect, if_neg hne]
         exact ⟨rfl, rfl, rfl⟩))
  · intro addr m rest hne
    constructor <;>
      (simp only [runCmd, runRes, initSt, do_deviceselect, if_neg hne]
       exact ⟨rfl, rfl, rfl⟩)

/-- Witness for C2 (amended): a failing open with a previously open
connection ends disconnected. -/
theorem deviceselect_failed_open_disconnects_witness :
    ("BAD" : String) ≠ "" ∧
    (runCmd (do_deviceselect "BAD")
        ⟨true, some "GPIB0::1::INSTR", some "GPIB0::1::INSTR"⟩
        [TransportOutcome.ok "",
         TransportOutcome.visaErr "VI_ERROR_RSRC_NFND"]).console =
      ⟨true, none, none⟩ :=
  ⟨by decide,
    (((deviceselect_failed_open_disconnects.1 "BAD" "GPIB0::1::INSTR"
      (some "GPIB0::1::INSTR") "VI_ERROR_RSRC_NFND" (TransportOutcome.ok "")
      [] (by decide)).1).1)⟩

/-- The connection invariant: the instrument handle is `None` exactly when
the selected device id is `None`. -/
def connInv (c : ConsoleState) : Prop :=
  c.instrument = none ↔ c.selected_device_id = none

/-- `deviceselect` preserves the connection invariant on every path:
empty argument, missing resource manager, close of the previous handle
(any outcome), failed or successful open, and the follow-up `*IDN?`
query. -/
theorem deviceselect_preserves_connInv (a : String) (c : ConsoleState)
    (oracle : List TransportOutcome) (hinv : connInv c) :
    connInv ((runCmd (do_deviceselect a) c oracle).console) := by
  obtain ⟨rm, instr, sel⟩ := c
  by_cases ha : a = ""
  · subst ha
    exact hinv
  · cases rm with
    | false =>
        simp only [runCmd, initSt, do_deviceselect, if_neg ha]
        exact hinv
    | true =>
        cases instr with
        | some h =>
            rcases oracle with _ | ⟨o1, _ | ⟨o2, _ | ⟨o3, rest⟩⟩⟩ <;>
              [skip;
               cases o1;
               (cases o1 <;> cases o2);
               (cases o1 <;> cases o2 <;> cases o3)] <;>
              (simp only [runCmd, initSt, do_deviceselect, connInv, M.bind_def,
                 M.bind, M.pure_def, M.pure, M.run_pure, instMonadM,
                 getConsole, setConsole, pr, modifySt, recordCall, takeOutcome,
                 unwrap, instrClose, rmOpen, trySwallow, tryCatchM, throwE,
                 do_id, queryCmd0V, tryVisaOther, withInstr, instrQuery,
                 List.nil_append, ne_eq, reduceIte, String.reduceEq,
                 reduceCtorEq, not_true, not_false_iff, false_and, and_false,
                 if_false, if_true, and_self, if_neg ha]
               try first | rfl | trivial)
        | none =>
            have hsel : sel = none := by
              simpa [connInv] using hinv
            subst hsel
            rcases oracle with _ | ⟨o1, _ | ⟨o2, rest⟩⟩ <;>
              [skip; cases o1; (cases o1 <;> cases o2)] <;>
              (simp only [runCmd, initSt, do_deviceselect, connInv, M.bind_def,
                 M.bind, M.pure_def, M.pure, M.run_pure, instMonadM,
                 getConsole, setConsole, pr, modifySt, recordCall, takeOutcome,
                 unwrap, instrClose, rmOpen, trySwallow, tryCatchM, throwE,
                 do_id, queryCmd0V, tryVisaOther, withInstr, instrQuery,
                 List.nil_append, ne_eq, reduceIte, String.reduceEq,
                 reduceCtorEq, not_true, not_false_iff, false_and, and_false,
                 if_false, if_true, and_self, if_neg ha]
               try first | rfl | trivial)

/-- Claim C10: every command — the whole dispatch table including a
failed or successful `deviceselect`, plus `exit`/EOF — preserves the
invariant that the instrument handle is `None` iff the selected device id
is `None`. -/
theorem commands_preserve_connInv (cmd : CommandName) (arg : String)
    (c : ConsoleState) (oracle : List TransportOutcome) (hinv : connInv c) :
    connInv ((runCmd (dispatch cmd arg) c oracle).console) ∧
    connInv ((do_exit arg (initSt c oracle)).2.console) ∧
    connInv ((do_EOF arg (initSt c oracle)).2.console) := by
  refine ⟨?_, ?_, ?_⟩
  · by_cases hd : cmd = CommandName.deviceselect
    · subst hd
      exact deviceselect_preserves_connInv arg c oracle hinv
    · have hk := keeps_dispatch cmd arg hd (initSt c oracle)
      unfold runCmd
      rw [hk]
      exact hinv
  · rw [keepsDo_exit arg (initSt c oracle)]
    exact hinv
  · rw [keepsDo_EOF arg (initSt c oracle)]
    exact hinv

/-- Witness for C10: a failed `deviceselect` over an open connection ends
with both fields `None`, satisfying the invariant. -/
theorem commands_preserve_connInv_witness :
    connInv ⟨true, some "GPIB0::1::INSTR", some "GPIB0::1::INSTR"⟩ ∧
    connInv ((runCmd (dispatch CommandName.deviceselect "BAD")
        ⟨true, some "GPIB0::1::INSTR", some "GPIB0::1::INSTR"⟩
        [TransportOutcome.ok "",
         TransportOutcome.visaErr "VI_ERROR_RSRC_NFND"]).console) :=
  ⟨by simp [connInv],
    (commands_preserve_connInv CommandName.deviceselect "BAD"
      ⟨true, some "GPIB0::1::INSTR", some "GPIB0::1::INSTR"⟩
      [TransportOutcome.ok "", TransportOutcome.visaErr "VI_ERROR_RSRC_NFND"]
      (by simp [connInv])).1⟩

end InstrumentTool
